import Mathlib

/-!
Shallow embedding of the MapTool deterministic terrain-synthesis engine.

JS `number` arithmetic is modelled as exact arithmetic in a linear ordered
field (instantiated at `ℝ` for the top-level pipeline; the hash layer is
exact integer arithmetic).  JS bitwise operators convert their operands with
ToInt32/ToUint32; that conversion is modelled exactly (`% 2^32`).  The one
idealisation is that products that overflow the 53-bit double mantissa are
kept exact instead of rounded.
-/

namespace MapTool

/-- JS ToUint32: reduce an integer to its unsigned 32-bit representative. -/
def toUint32 (n : ℤ) : ℕ := (n % 4294967296).toNat

/-- JS ToInt32: reduce an integer to its signed 32-bit representative. -/
def toInt32 (n : ℤ) : ℤ :=
  let m := n % 4294967296
  if m < 2147483648 then m else m - 4294967296

/-- JS `a ^ b` on numbers: xor of the 32-bit representations, signed result. -/
def jsXor (a b : ℤ) : ℤ := toInt32 (Nat.xor (toUint32 a) (toUint32 b) : ℕ)

/-- JS `a << k`: left shift of the 32-bit representation, signed result. -/
def jsShl (a : ℤ) (k : ℕ) : ℤ := toInt32 ((toUint32 a : ℤ) * 2 ^ k)

/-- JS `a >>> k`: unsigned right shift. -/
def jsShrU (a : ℤ) (k : ℕ) : ℕ := toUint32 a / 2 ^ k

/-- JS `a >> k`: signed (arithmetic) right shift, i.e. floor division. -/
def jsShrS (a : ℤ) (k : ℕ) : ℤ := Int.fdiv (toInt32 a) (2 ^ k)

/-- JS `x | 0` (used to truncate to int32). -/
def jsOr0 (a : ℤ) : ℤ := toInt32 a

/-- JS `Math.round`: round half toward positive infinity. -/
noncomputable def jsRound (x : ℝ) : ℤ := ⌊x + 1/2⌋

/-! ## `src/lib/utils/noise.ts` -/

namespace UtilsNoise

/-- `const UINT32_MAX = 0xffffffff`. -/
def UINT32_MAX : ℕ := 4294967295

/-- `function hash(value)`: the avalanche integer hash chain; returns the
final `value >>> 0`. -/
def hash (value : ℤ) : ℕ :=
  let v1 := (value + 0x7ed55d16) + jsShl value 12
  let v2 := jsXor (jsXor v1 0xc761c23c) (jsShrU v1 19 : ℕ)
  let v3 := (v2 + 0x165667b1) + jsShl v2 5
  let v4 := jsXor (v3 + 0xd3a2646c) (jsShl v3 9)
  let v5 := (v4 + 0xfd7046c5) + jsShl v4 3
  let v6 := jsXor (jsXor v5 0xb55a4f09) (jsShrU v5 16 : ℕ)
  toUint32 v6

/-- `function hash2d(x, y, seed)`. -/
def hash2d (x y seed : ℤ) : ℕ :=
  let hx := hash (jsOr0 x)
  let hy := hash (jsXor (jsShl y 16) y)
  let hs := hash seed
  hash (jsXor (jsXor (hx : ℤ) (hy : ℤ)) (hs : ℤ))

variable {α : Type} [LinearOrderedField α] [FloorRing α]

/-- `function lerp(a, b, t)`. -/
def lerp (a b t : α) : α := a + (b - a) * t

/-- `function smoothstep(t)`. -/
def smoothstep (t : α) : α := t * t * (3 - 2 * t)

/-- `export function valueNoise2D(x, y, scale, seed)`. -/
def valueNoise2D (x y scale : α) (seed : ℤ) : α :=
  let sx := x / scale
  let sy := y / scale
  let x0 : ℤ := ⌊sx⌋
  let y0 : ℤ := ⌊sy⌋
  let x1 : ℤ := x0 + 1
  let y1 : ℤ := y0 + 1
  let tx := smoothstep (sx - (x0 : α))
  let ty := smoothstep (sy - (y0 : α))
  let v00 : α := (hash2d x0 y0 seed : α) / (UINT32_MAX : α)
  let v10 : α := (hash2d x1 y0 seed : α) / (UINT32_MAX : α)
  let v01 : α := (hash2d x0 y1 seed : α) / (UINT32_MAX : α)
  let v11 : α := (hash2d x1 y1 seed : α) / (UINT32_MAX : α)
  let ix0 := lerp v00 v10 tx
  let ix1 := lerp v01 v11 tx
  lerp ix0 ix1 ty

/-- `export interface FbmOptions`. -/
structure FbmOptions (α : Type) where
  octaves : ℕ
  lacunarity : α
  gain : α
  scale : α
  seed : ℤ

/-- State of the octave loop in `fbmNoise2D`:
`(amplitude, frequency, value, totalAmplitude)` after the given number of
octaves. -/
def fbmLoop (x y : α) (options : FbmOptions α) : ℕ → α × α × α × α
  | 0 => (1, 1, 0, 0)
  | n + 1 =>
    let s := fbmLoop x y options n
    let amplitude := s.1
    let frequency := s.2.1
    let value := s.2.2.1
    let totalAmplitude := s.2.2.2
    let sampleX := x * frequency
    let sampleY := y * frequency
    let noise := valueNoise2D sampleX sampleY options.scale (options.seed + n * 101)
    (amplitude * options.gain, frequency * options.lacunarity,
      value + (noise * 2 - 1) * amplitude, totalAmplitude + amplitude)

/-- `export function fbmNoise2D(x, y, options)`. -/
def fbmNoise2D (x y : α) (options : FbmOptions α) : α :=
  let s := fbmLoop x y options options.octaves
  let value := s.2.2.1
  let totalAmplitude := s.2.2.2
  if totalAmplitude ≤ 0 then 0 else value / totalAmplitude

/-- `export function ridgedNoise2D(x, y, options)`. -/
def ridgedNoise2D (x y : α) (options : FbmOptions α) : α :=
  let base := fbmNoise2D x y options
  1 - |base|

/-- `export function warpCoordinates(x, y, seed, strength, scale)`.
Note the short-circuit tests `strength === 0`, not `strength <= 0`. -/
def warpCoordinates (x y : α) (seed : ℤ) (strength scale : α) : α × α :=
  if strength = 0 then (x, y)
  else
    let dx := fbmNoise2D (x + (seed : α) * 1.37) (y - (seed : α) * 0.91)
      ⟨3, 2.1, 0.5, scale, jsXor seed 0xdeadbeef⟩
    let dy := fbmNoise2D (x - (seed : α) * 0.73) (y + (seed : α) * 1.21)
      ⟨3, 2.05, 0.55, scale, jsXor seed 0xbaadf00d⟩
    (x + dx * strength, y + dy * strength)

end UtilsNoise

/-! ## `src/lib/generation/noise.ts` -/

namespace GenNoise

variable {α : Type} [LinearOrderedField α] [FloorRing α]

/-- `export function clamp(value, min, max)` — `Math.max(min, Math.min(max, value))`. -/
def clamp (value mn mx : α) : α := max mn (min mx value)

/-- `function fade(t)`. -/
def fade (t : α) : α := t * t * t * (t * (t * 6 - 15) + 10)

/-- `function lerp(a, b, t)`. -/
def lerp (a b t : α) : α := a + (b - a) * t

/-- `function hash(x, y, seed)` up to the final division: the integer value
`h >>> 0`.  The intermediate products are kept exact (see file header). -/
def hashBits (x y seed : ℤ) : ℕ :=
  let h0 := x * 374761393 + y * 668265263 + seed * 69069
  let h1 := jsXor h0 (jsShrS h0 13) * 1274126177
  let h2 := jsXor h1 (jsShrS h1 16)
  toUint32 h2

/-- `function hash(x, y, seed)`: `(h >>> 0) / 0xffffffff`. -/
def hash (x y seed : ℤ) : α := (hashBits x y seed : α) / 4294967295

/-- `export function valueNoise2D(x, y, seed)`. -/
def valueNoise2D (x y : α) (seed : ℤ) : α :=
  let xi : ℤ := ⌊x⌋
  let yi : ℤ := ⌊y⌋
  let xf := x - (xi : α)
  let yf := y - (yi : α)
  let topLeft : α := hash xi yi seed
  let topRight : α := hash (xi + 1) yi seed
  let bottomLeft : α := hash xi (yi + 1) seed
  let bottomRight : α := hash (xi + 1) (yi + 1) seed
  let u := fade xf
  let v := fade yf
  let top := lerp topLeft topRight u
  let bottom := lerp bottomLeft bottomRight u
  lerp top bottom v

/-- `export interface FbmOptions` — all fields optional (`??` defaults
resolved inside each consumer). -/
structure FbmOptions (α : Type) where
  octaves : Option ℕ := none
  lacunarity : Option α := none
  gain : Option α := none

/-- Octave loop of `fbm2D`: `(amplitude, frequency, sum, amplitudeSum)`
after the given number of octaves. -/
def fbmLoop (x y : α) (seed : ℤ) (lacunarity gain : α) : ℕ → α × α × α × α
  | 0 => (1, 1, 0, 0)
  | i + 1 =>
    let s := fbmLoop x y seed lacunarity gain i
    let amplitude := s.1
    let frequency := s.2.1
    let sum := s.2.2.1
    let amplitudeSum := s.2.2.2
    let noise := valueNoise2D (x * frequency) (y * frequency) (seed + i) * 2 - 1
    (amplitude * gain, frequency * lacunarity, sum + noise * amplitude,
      amplitudeSum + amplitude)

/-- `export function fbm2D(x, y, seed, options = {})`. -/
def fbm2D (x y : α) (seed : ℤ) (options : FbmOptions α) : α :=
  let octaves := options.octaves.getD 5
  let lacunarity := options.lacunarity.getD 2.1
  let gain := options.gain.getD 0.5
  let s := fbmLoop x y seed lacunarity gain octaves
  let sum := s.2.2.1
  let amplitudeSum := s.2.2.2
  if amplitudeSum = 0 then 0 else sum / amplitudeSum

/-- Octave loop of `ridgedFbm2D`: `(amplitude, frequency, sum, amplitudeSum)`
after the given number of octaves; each octave contributes
`(1 - |noise|)²` times the current amplitude. -/
def ridgedLoop (x y : α) (seed : ℤ) (lacunarity gain : α) : ℕ → α × α × α × α
  | 0 => (0.5, 1.5, 0, 0)
  | i + 1 =>
    let s := ridgedLoop x y seed lacunarity gain i
    let amplitude := s.1
    let frequency := s.2.1
    let sum := s.2.2.1
    let amplitudeSum := s.2.2.2
    let noise := valueNoise2D (x * frequency) (y * frequency) (seed + i) * 2 - 1
    let ridge := 1 - |noise|
    let contribution := ridge * ridge
    (amplitude * gain, frequency * lacunarity, sum + contribution * amplitude,
      amplitudeSum + amplitude)

/-- `export function ridgedFbm2D(x, y, seed, options = {})`. -/
def ridgedFbm2D (x y : α) (seed : ℤ) (options : FbmOptions α) : α :=
  let octaves := options.octaves.getD 5
  let lacunarity := options.lacunarity.getD 2.0
  let gain := options.gain.getD 0.6
  let s := ridgedLoop x y seed lacunarity gain octaves
  let sum := s.2.2.1
  let amplitudeSum := s.2.2.2
  if amplitudeSum = 0 then 0 else clamp (sum / amplitudeSum) 0 1

/-- `export function domainWarp(x, y, seed, strength, scale)`.
Short-circuits to the identity for `strength <= 0`. -/
def domainWarp (x y : α) (seed : ℤ) (strength scale : α) : α × α :=
  if strength ≤ 0 then (x, y)
  else
    let warpScale := scale * 1.3
    let dx := valueNoise2D (x * warpScale + 19.7) (y * warpScale + 43.3) (seed + 101) * 2 - 1
    let dy := valueNoise2D (x * warpScale + 73.1) (y * warpScale + 11.8) (seed + 203) * 2 - 1
    (x + dx * strength, y + dy * strength)

/-- `export function smoothstep(edge0, edge1, x)`. -/
def smoothstep (edge0 edge1 x : α) : α :=
  let t := clamp ((x - edge0) / (edge1 - edge0)) 0 1
  t * t * (3 - 2 * t)

end GenNoise

/-! ## `src/lib/generation/biome.ts` -/

namespace GenBiome

/-- `interface BiomeReference`. -/
structure BiomeReference (α : Type) where
  elevation : α
  moisture : α
  temperature : α
  index : ℕ

variable {α : Type} [LinearOrderedField α] [FloorRing α]

/-- `const BIOME_REFERENCES`. -/
def BIOME_REFERENCES : List (BiomeReference α) :=
  [⟨0.15, 0.6, 0.9, 0⟩, ⟨0.2, 0.8, 0.8, 1⟩, ⟨0.4, 0.35, 0.3, 2⟩,
   ⟨0.5, 0.55, 0.35, 3⟩, ⟨0.55, 0.75, 0.45, 4⟩, ⟨0.5, 0.5, 0.6, 5⟩,
   ⟨0.6, 0.9, 0.8, 6⟩, ⟨0.55, 0.55, 0.85, 7⟩, ⟨0.35, 0.3, 0.95, 8⟩,
   ⟨0.75, 0.45, 0.3, 9⟩]

/-- One step of the nearest-reference scan in `pickBiome`.  The accumulator
holds the best reference so far and its score; the initial
`Number.POSITIVE_INFINITY` best score is modelled as `none` (every finite
score compares below it). -/
def pickStep (elevation moisture temperature : α)
    (acc : BiomeReference α × Option α) (candidate : BiomeReference α) :
    BiomeReference α × Option α :=
  let dElevation := |candidate.elevation - elevation|
  let dMoisture := |candidate.moisture - moisture|
  let dTemperature := |candidate.temperature - temperature|
  let score := dElevation * 1.8 + dMoisture * 1.2 + dTemperature
  match acc.2 with
  | none => (candidate, some score)
  | some bestScore => if score < bestScore then (candidate, some score) else acc

end GenBiome

/-! ## `src/lib/generation/systems.ts` (and the `GeneratorParameters` record it
consumes).  The named-parameter record itself is declared in a
`types/generation.ts` snapshot that is not among the sources; its fields are
reconstructed from the accesses in `systems.ts` and from the spec's
`GenerationRequest` (width, height, seed plus the named shaping
parameters). -/

namespace Systems

/-- `GeneratorType`: the four families dispatched by `runGenerator`. -/
inductive GeneratorType
  | continental
  | archipelago
  | highlands
  | weitouDelta
deriving DecidableEq

/-- `GeneratorParameters` as used by `systems.ts`. -/
structure GeneratorParameters where
  generatorType : GeneratorType
  width : ℕ
  height : ℕ
  seed : ℤ
  seaLevel : ℝ
  elevationAmplitude : ℝ
  warpStrength : ℝ
  erosionIterations : ℝ
  featureScale : ℝ
  moistureScale : ℝ
  riverStrength : ℝ
  temperatureBias : ℝ

/-- `function pickBiome(elevation, waterDepth, moisture, temperature, params)`
from `generation/biome.ts` (instantiated at `ℝ`, since it reads
`params.seaLevel`). -/
noncomputable def pickBiome (elevation waterDepth moisture temperature : ℝ)
    (params : GeneratorParameters) : ℕ :=
  if 0.55 < waterDepth then 0
  else if 0.35 < waterDepth ∧ elevation < GenNoise.clamp (params.seaLevel + 0.05) 0 1 then 1
  else
    let best := (GenBiome.BIOME_REFERENCES (α := ℝ)).foldl
      (GenBiome.pickStep elevation moisture temperature)
      (GenBiome.BIOME_REFERENCES.headD ⟨0, 0, 0, 0⟩, none)
    best.1.index

/-- The values written by one `applyCell` call. -/
structure CellValues where
  heightmap : ℝ
  water : ℝ
  moisture : ℝ
  temperature : ℝ
  flow : ℝ
  biome : ℕ

/-- `function applyCell(result, index, elevation, water, moisture,
temperature, flow, params)` — clamps every field and classifies the biome. -/
noncomputable def applyCell (elevation water moisture temperature flow : ℝ)
    (params : GeneratorParameters) : CellValues :=
  let clampedElevation := GenNoise.clamp elevation 0 1
  let clampedWater := GenNoise.clamp water 0 1
  let clampedMoisture := GenNoise.clamp moisture 0 1
  let clampedTemperature := GenNoise.clamp temperature 0 1
  let clampedFlow := GenNoise.clamp flow 0 1
  ⟨clampedElevation, clampedWater, clampedMoisture, clampedTemperature, clampedFlow,
    pickBiome clampedElevation clampedWater clampedMoisture clampedTemperature params⟩

/-- `GeneratorResult` for the `systems.ts` families: dense arrays indexed by
`y * width + x`, modelled as index functions (`Float32Array`/`Uint8Array`
slots outside the written range keep their zero initialisation). -/
structure GeneratorResult where
  width : ℕ
  height : ℕ
  heightmap : ℕ → ℝ
  flow : ℕ → ℝ
  moisture : ℕ → ℝ
  temperature : ℕ → ℝ
  biome : ℕ → ℕ
  water : ℕ → ℝ

/-- Assemble a result from a per-cell computation; each loop iteration of a
generator writes exactly the cell `y * width + x`, so the arrays are the
cell values on `[0, width*height)` and zero elsewhere. -/
noncomputable def assemble (width height : ℕ) (cell : ℕ → ℕ → CellValues) :
    GeneratorResult :=
  { width := width
    height := height
    heightmap := fun idx => if idx < width * height then (cell (idx % width) (idx / width)).heightmap else 0
    flow := fun idx => if idx < width * height then (cell (idx % width) (idx / width)).flow else 0
    moisture := fun idx => if idx < width * height then (cell (idx % width) (idx / width)).moisture else 0
    temperature := fun idx => if idx < width * height then (cell (idx % width) (idx / width)).temperature else 0
    biome := fun idx => if idx < width * height then (cell (idx % width) (idx / width)).biome else 0
    water := fun idx => if idx < width * height then (cell (idx % width) (idx / width)).water else 0 }

/-- Per-cell body of `generateContinental`. -/
noncomputable def continentalCell (params : GeneratorParameters) (x y : ℕ) : CellValues :=
  let seed := params.seed
  let width := params.width
  let height := params.height
  let amplitude := GenNoise.clamp params.elevationAmplitude 0.2 3
  let warp := GenNoise.clamp params.warpStrength 0 400 / 220
  let smoothing := GenNoise.clamp params.erosionIterations 0 12 / 12
  let featureScale := GenNoise.clamp params.featureScale 0.3 3.5
  let humidityScale := GenNoise.clamp params.moistureScale 0.2 3
  let relativeSea := GenNoise.clamp params.seaLevel 0.05 0.95
  let riverFactor := GenNoise.clamp params.riverStrength 0 2
  let temperatureBias := GenNoise.clamp params.temperatureBias (-1) 1 * 0.5
  let ny : ℝ := if 1 < height then (y : ℝ) / ((height : ℝ) - 1) else 0
  let py := ny - 0.5
  let nx : ℝ := if 1 < width then (x : ℝ) / ((width : ℝ) - 1) else 0
  let px := nx - 0.5
  let radial := Real.sqrt (px * px + py * py)
  let continentalShelf :=
    1 - GenNoise.smoothstep 0.28 0.78 (radial / GenNoise.clamp (0.8 / featureScale) 0.45 1)
  let warped := GenNoise.domainWarp (px * featureScale * 1.4) (py * featureScale * 1.4)
    seed (warp * 0.75) featureScale
  let base := GenNoise.fbm2D warped.1 warped.2 seed
    ⟨some 5, some 2.08, some (0.52 + smoothing * 0.05)⟩
  let tectonic := GenNoise.fbm2D (px * featureScale * 0.7 + 40.5)
    (py * featureScale * 0.7 + 81.2) (seed + 551) ⟨some 3, some 1.9, some 0.6⟩
  let detail := GenNoise.fbm2D (warped.1 * 3.2) (warped.2 * 3.2) (seed + 880)
    ⟨some 2, some 2.4, some 0.55⟩
  let raw0 := base * 0.55 + tectonic * 0.35 + detail * 0.15 + continentalShelf * 0.5 - 0.1
  let raw := raw0 / (1 + smoothing * 0.4)
  let elevation0 := GenNoise.clamp ((raw + 1) / 2) 0 1
  let elevation := elevation0 ^ ((1.05 : ℝ) - smoothing * 0.3) * amplitude
  let depth := GenNoise.clamp (relativeSea - elevation) 0 1
  let riverNoise := GenNoise.fbm2D (warped.1 * 2.1 + 200) (warped.2 * 2.1 + 200)
    (seed + 1200) ⟨some 3, some 2.3, some 0.58⟩
  let riverMask := (1 - |riverNoise|) ^ (3 : ℕ)
  let rivers := GenNoise.clamp (riverMask - 0.55) 0 1 * (riverFactor / 1.6) * (1 - elevation)
  let water := GenNoise.clamp (depth + rivers) 0 1
  let humidity := GenNoise.clamp ((water * 0.65 + (1 - elevation) * 0.35) * humidityScale) 0 1
  let latitude := |py| * 1.35
  let temperature := GenNoise.clamp (1 - latitude - elevation * 0.55 + temperatureBias) 0 1
  let flow := GenNoise.clamp (water * 0.7 + rivers * 1.2) 0 1
  applyCell elevation water humidity temperature flow params

/-- `function generateContinental(params)`. -/
noncomputable def generateContinental (params : GeneratorParameters) : GeneratorResult :=
  assemble params.width params.height (continentalCell params)

/-- Per-cell body of `generateArchipelago`. -/
noncomputable def archipelagoCell (params : GeneratorParameters) (x y : ℕ) : CellValues :=
  let seed := params.seed
  let width := params.width
  let height := params.height
  let amplitude := GenNoise.clamp params.elevationAmplitude 0.15 2.2
  let warp := GenNoise.clamp params.warpStrength 0 400 / 260
  let smoothing := GenNoise.clamp params.erosionIterations 0 12 / 12
  let featureScale := GenNoise.clamp params.featureScale 0.4 3.8
  let humidityScale := GenNoise.clamp params.moistureScale 0.2 3
  let relativeSea := GenNoise.clamp (params.seaLevel + 0.05) 0.1 0.95
  let lagoonFactor := GenNoise.clamp params.riverStrength 0 2
  let temperatureBias := GenNoise.clamp params.temperatureBias (-1) 1 * 0.5
  let ny : ℝ := if 1 < height then (y : ℝ) / ((height : ℝ) - 1) else 0
  let py := ny - 0.5
  let nx : ℝ := if 1 < width then (x : ℝ) / ((width : ℝ) - 1) else 0
  let px := nx - 0.5
  let radial := Real.sqrt (px * px + py * py)
  let islandMask :=
    1 - GenNoise.smoothstep 0.25 0.85 (radial / GenNoise.clamp (0.65 / featureScale) 0.38 1)
  let warped := GenNoise.domainWarp (px * featureScale * 1.9) (py * featureScale * 1.9)
    (seed + 302) warp featureScale
  let base := GenNoise.fbm2D warped.1 warped.2 (seed + 733)
    ⟨some 4, some 2.35, some (0.52 + smoothing * 0.04)⟩
  let choppiness := GenNoise.fbm2D (warped.1 * 3.4) (warped.2 * 3.4) (seed + 941)
    ⟨some 3, some 2.6, some 0.6⟩
  let sandbars := GenNoise.valueNoise2D (px * featureScale * 5.6 + 910)
    (py * featureScale * 5.6 + 122) (seed + 1441) * 2 - 1
  let raw0 := base * 0.65 + choppiness * 0.25 + sandbars * 0.1 + islandMask * 0.9 - 0.25
  let raw := raw0 / (1 + smoothing * 0.35)
  let elevation0 := GenNoise.clamp ((raw + 1) / 2) 0 1
  let elevation := elevation0 ^ ((0.95 : ℝ) - smoothing * 0.25) * amplitude
  let depth := GenNoise.clamp (relativeSea - elevation) 0 1
  let lagoonNoise := GenNoise.valueNoise2D (px * featureScale * 7.4 + 510)
    (py * featureScale * 7.4 + 640) (seed + 1603)
  let lagoons := max 0 (lagoonNoise - 0.58) * (lagoonFactor / 1.4) * islandMask
  let water := GenNoise.clamp (depth + lagoons) 0 1
  let humidity := GenNoise.clamp ((water * 0.75 + (1 - elevation) * 0.25) * humidityScale) 0 1
  let latitude := |py| * 1.1
  let temperature := GenNoise.clamp (0.9 - latitude * 0.8 - elevation * 0.35 + temperatureBias) 0 1
  let flow := GenNoise.clamp ((water + lagoons) * 0.8) 0 1
  applyCell elevation water humidity temperature flow params

/-- `function generateArchipelago(params)`. -/
noncomputable def generateArchipelago (params : GeneratorParameters) : GeneratorResult :=
  assemble params.width params.height (archipelagoCell params)

/-- Per-cell body of `generateHighlands`. -/
noncomputable def highlandsCell (params : GeneratorParameters) (x y : ℕ) : CellValues :=
  let seed := params.seed
  let width := params.width
  let height := params.height
  let amplitude := GenNoise.clamp params.elevationAmplitude 0.4 3.5
  let warp := GenNoise.clamp params.warpStrength 0 400 / 200
  let smoothing := GenNoise.clamp params.erosionIterations 0 12 / 12
  let featureScale := GenNoise.clamp params.featureScale 0.4 3
  let humidityScale := GenNoise.clamp params.moistureScale 0.2 2.5
  let relativeSea := GenNoise.clamp (params.seaLevel - 0.05) 0.02 0.85
  let riverFactor := GenNoise.clamp params.riverStrength 0 2
  let temperatureBias := GenNoise.clamp params.temperatureBias (-1) 1 * 0.5
  let ny : ℝ := if 1 < height then (y : ℝ) / ((height : ℝ) - 1) else 0
  let py := ny - 0.5
  let nx : ℝ := if 1 < width then (x : ℝ) / ((width : ℝ) - 1) else 0
  let px := nx - 0.5
  let warped := GenNoise.domainWarp (px * featureScale * 1.5) (py * featureScale * 1.5)
    (seed + 601) warp featureScale
  let ridged := GenNoise.ridgedFbm2D (warped.1 * 1.9) (warped.2 * 1.9) (seed + 1900)
    ⟨some 5, some 2.15, some (0.68 - smoothing * 0.1)⟩
  let base := GenNoise.fbm2D warped.1 warped.2 (seed + 1831) ⟨some 4, some 2.05, some 0.55⟩
  let plateaus := GenNoise.fbm2D (px * featureScale * 0.8 + 310)
    (py * featureScale * 0.8 + 540) (seed + 2142) ⟨some 3, some 1.8, some 0.6⟩
  let elevation0 := GenNoise.clamp
    (ridged * 1.2 + (base + 1) * 0.25 + (plateaus + 1) * 0.15 - 0.45) 0 1
  let elevation := elevation0 ^ ((0.85 : ℝ) - smoothing * 0.15) * amplitude * 1.05
  let depth := GenNoise.clamp (relativeSea - elevation * 0.8) 0 1
  let valleyNoise := GenNoise.fbm2D (warped.1 * 2.5 + 90) (warped.2 * 2.5 + 90)
    (seed + 2281) ⟨some 3, some 2.4, some 0.6⟩
  let valleys := (1 - |valleyNoise|) ^ (3 : ℕ)
  let rivers := GenNoise.clamp (valleys - 0.7) 0 1 * (riverFactor / 1.8) * (1 - elevation)
  let water := GenNoise.clamp (depth + rivers * 0.8) 0 1
  let humidity := GenNoise.clamp ((water * 0.45 + (1 - elevation) * 0.2) * humidityScale) 0 1
  let latitude := |py| * 1.6
  let temperature := GenNoise.clamp (0.75 - latitude - elevation * 0.8 + temperatureBias) 0 1
  let flow := GenNoise.clamp (rivers * 1.4 + water * 0.3) 0 1
  applyCell elevation water humidity temperature flow params

/-- `function generateHighlands(params)`. -/
noncomputable def generateHighlands (params : GeneratorParameters) : GeneratorResult :=
  assemble params.width params.height (highlandsCell params)

/-! The local bindings of the `generateWeitouDelta` loop body, one definition
per source line (named after the source's local variables), so that the
per-cell fields can be evaluated compositionally. -/

namespace Weitou

noncomputable def amplitude (p : GeneratorParameters) : ℝ :=
  GenNoise.clamp p.elevationAmplitude 0.2 2.2

noncomputable def warp (p : GeneratorParameters) : ℝ :=
  GenNoise.clamp p.warpStrength 0 400 / 240

noncomputable def smoothing (p : GeneratorParameters) : ℝ :=
  GenNoise.clamp p.erosionIterations 0 12 / 12

noncomputable def featureScale (p : GeneratorParameters) : ℝ :=
  GenNoise.clamp p.featureScale 0.6 3.2

noncomputable def humidityScale (p : GeneratorParameters) : ℝ :=
  GenNoise.clamp p.moistureScale 0.3 3.2

noncomputable def relativeSea (p : GeneratorParameters) : ℝ :=
  GenNoise.clamp (p.seaLevel + 0.08) 0.15 0.95

noncomputable def riverFactor (p : GeneratorParameters) : ℝ :=
  GenNoise.clamp p.riverStrength 0 2

noncomputable def temperatureBias (p : GeneratorParameters) : ℝ :=
  GenNoise.clamp p.temperatureBias (-1) 1 * 0.65

noncomputable def ny (p : GeneratorParameters) (y : ℕ) : ℝ :=
  if 1 < p.height then (y : ℝ) / ((p.height : ℝ) - 1) else 0

noncomputable def py (p : GeneratorParameters) (y : ℕ) : ℝ := ny p y - 0.5

noncomputable def nx (p : GeneratorParameters) (x : ℕ) : ℝ :=
  if 1 < p.width then (x : ℝ) / ((p.width : ℝ) - 1) else 0

noncomputable def px (p : GeneratorParameters) (x : ℕ) : ℝ := nx p x - 0.5

noncomputable def warped (p : GeneratorParameters) (x y : ℕ) : ℝ × ℝ :=
  GenNoise.domainWarp (px p x * featureScale p * 1.2) (py p y * featureScale p)
    (p.seed + 901) (warp p * 0.6) (featureScale p)

noncomputable def farmland (p : GeneratorParameters) (x y : ℕ) : ℝ :=
  GenNoise.fbm2D ((warped p x y).1 * 1.6) ((warped p x y).2 * 1.4) (p.seed + 2400)
    ⟨some 3, some 1.9, some (0.6 - smoothing p * 0.05)⟩

noncomputable def tidalSlope (p : GeneratorParameters) (y : ℕ) : ℝ :=
  GenNoise.smoothstep 0.45 0.92 (ny p y)

noncomputable def meander (p : GeneratorParameters) (x : ℕ) : ℝ :=
  Real.sin ((px p x + 0.5) * (3.2 + featureScale p * 1.5) + (p.seed : ℝ) * 0.001) * 0.18

noncomputable def branchNoise (p : GeneratorParameters) (x y : ℕ) : ℝ :=
  GenNoise.fbm2D (px p x * 2.8 + 120) (ny p y * 5.1 + 33) (p.seed + 2601)
    ⟨some 3, some 2.8, some 0.65⟩

noncomputable def riverCenter (p : GeneratorParameters) (x y : ℕ) : ℝ :=
  meander p x + branchNoise p x y * 0.08 - 0.1

noncomputable def riverDistance (p : GeneratorParameters) (x y : ℕ) : ℝ :=
  |py p y - riverCenter p x y|

noncomputable def channelWidth (p : GeneratorParameters) : ℝ :=
  0.04 + riverFactor p * 0.06

noncomputable def riverMask (p : GeneratorParameters) (x y : ℕ) : ℝ :=
  GenNoise.clamp (1 - riverDistance p x y / channelWidth p) 0 1

noncomputable def distributaries (p : GeneratorParameters) (x y : ℕ) : ℝ :=
  GenNoise.clamp (branchNoise p x y * 0.6 + riverMask p x y) 0 1

noncomputable def elevation0 (p : GeneratorParameters) (x y : ℕ) : ℝ :=
  GenNoise.clamp (0.28 + farmland p x y * 0.25 - ny p y * 0.45 - riverMask p x y * 0.35) 0 1

noncomputable def elevation (p : GeneratorParameters) (x y : ℕ) : ℝ :=
  elevation0 p x y ^ ((1.05 : ℝ) - smoothing p * 0.1) * amplitude p * 0.85

noncomputable def tidalWater (p : GeneratorParameters) (y : ℕ) : ℝ :=
  GenNoise.smoothstep 0.55 0.92 (ny p y) * 0.45

noncomputable def water (p : GeneratorParameters) (x y : ℕ) : ℝ :=
  GenNoise.clamp
    (relativeSea p + tidalWater p y - elevation p x y + riverMask p x y * 0.7 +
      distributaries p x y * (riverFactor p / 1.3)) 0 1

noncomputable def humidity (p : GeneratorParameters) (x y : ℕ) : ℝ :=
  GenNoise.clamp
    ((water p x y * 0.8 + riverMask p x y * 0.4 + (1 - elevation p x y) * 0.3) *
      humidityScale p) 0 1

noncomputable def temperature (p : GeneratorParameters) (x y : ℕ) : ℝ :=
  GenNoise.clamp (0.85 - ny p y * 0.35 - elevation p x y * 0.25 + temperatureBias p) 0 1

noncomputable def flowValue (p : GeneratorParameters) (x y : ℕ) : ℝ :=
  GenNoise.clamp
    ((riverMask p x y * 1.4 + distributaries p x y * 0.8) * (0.6 + riverFactor p / 1.5)) 0 1

end Weitou

/-- Per-cell body of `generateWeitouDelta` (the unused `tidalSlope` binding of
the source is kept as `Weitou.tidalSlope`). -/
noncomputable def weitouDeltaCell (params : GeneratorParameters) (x y : ℕ) : CellValues :=
  applyCell (Weitou.elevation params x y) (Weitou.water params x y)
    (Weitou.humidity params x y) (Weitou.temperature params x y)
    (Weitou.flowValue params x y) params

/-- `function generateWeitouDelta(params)`. -/
noncomputable def generateWeitouDelta (params : GeneratorParameters) : GeneratorResult :=
  assemble params.width params.height (weitouDeltaCell params)

/-- `export function runGenerator(params)` — exhaustive dispatch on the
generator family (the `default` throw is unreachable for the closed
`GeneratorType` union). -/
noncomputable def runGenerator (params : GeneratorParameters) : GeneratorResult :=
  match params.generatorType with
  | GeneratorType.continental => generateContinental params
  | GeneratorType.archipelago => generateArchipelago params
  | GeneratorType.highlands => generateHighlands params
  | GeneratorType.weitouDelta => generateWeitouDelta params

end Systems

/-! ## `src/lib/utils/terrainProcessing.ts`

Dense `Float32Array` fields are modelled as index functions `ℕ → ℝ`; the
meaningful entries are the indices below `width * height` (entries beyond the
array length are artifacts of the encoding and are never constrained). -/

namespace TerrainProc

/-- `const DIRECTIONS`: the 8-neighbourhood offsets, in source order. -/
def DIRECTIONS : List (ℤ × ℤ) :=
  [(-1, -1), (0, -1), (1, -1), (-1, 0), (1, 0), (-1, 1), (0, 1), (1, 1)]

/-- Inner scan of `buildFlowMap` for one cell: the steepest strictly lower
neighbour (`lowest` starts at the cell's own height, `lowestIndex` at
`null`). -/
noncomputable def downslopeAt (heightmap : ℕ → ℝ) (width height : ℕ) (x y : ℕ) :
    Option ℕ :=
  let index := y * width + x
  let current := heightmap index
  let scan := DIRECTIONS.foldl
    (fun (acc : ℝ × Option ℕ) d =>
      let nx : ℤ := (x : ℤ) + d.1
      let ny : ℤ := (y : ℤ) + d.2
      if nx < 0 ∨ ny < 0 ∨ (width : ℤ) ≤ nx ∨ (height : ℤ) ≤ ny then acc
      else
        let neighborIndex := (ny * width + nx).toNat
        let neighbor := heightmap neighborIndex
        if neighbor < acc.1 then (neighbor, some neighborIndex) else acc)
    (current, none)
  scan.2

/-- One iteration of the flow-accumulation loop of `buildFlowMap`:
`flow[target] += flow[cell]` when the cell has a downslope target. -/
noncomputable def flowStep (downslope : ℕ → Option ℕ) (flow : ℕ → ℝ) (cell : ℕ) :
    ℕ → ℝ :=
  match downslope cell with
  | some target => Function.update flow target (flow target + flow cell)
  | none => flow

/-- The flow-accumulation fold of `buildFlowMap`: starting from the all-ones
array, each cell (taken in the given order) adds its current flow to its
downslope target. -/
noncomputable def accumulateFlow (downslope : ℕ → Option ℕ) (order : List ℕ) :
    (ℕ → ℝ) → (ℕ → ℝ) :=
  fun flow0 => order.foldl (flowStep downslope) flow0

/-- `export function buildFlowMap(heightmap, width, height, seaLevel)`.
The processing order sorts all cell indices by descending height (JS
`Array.prototype.sort` is stable; ties keep index order). -/
noncomputable def buildFlowMap (heightmap : ℕ → ℝ) (width height : ℕ)
    (seaLevel : ℝ) : (ℕ → ℝ) × (ℕ → ℝ) :=
  let downslope := fun index => downslopeAt heightmap width height (index % width) (index / width)
  let order := (List.range (width * height)).mergeSort
    (fun a b => decide (heightmap b ≤ heightmap a))
  let flow := accumulateFlow downslope order (fun _ => 1)
  let maxFlow := (List.range (width * height)).foldl (fun acc i => max acc (flow i)) 0
  let water := fun index =>
    if heightmap index ≤ seaLevel then (1 : ℝ)
    else
      let runoff := (flow index / (maxFlow + 1)) ^ (0.4 : ℝ)
      if 0.3 < runoff then runoff else 0
  (flow, water)

/-- `export function enhanceMoisture(moisture, water, flow, moistureScale)`;
`n` is the common array length `width * height` over which the maximum flow
is reduced. -/
noncomputable def enhanceMoisture (n : ℕ) (moisture water flow : ℕ → ℝ)
    (moistureScale : ℝ) : ℕ → ℝ :=
  let maxFlow := (List.range n).foldl (fun acc i => max acc (flow i)) 0
  fun index =>
    let waterBonus := min 0.7 (water index * 0.7)
    let flowBonus := min 0.8 (flow index / (maxFlow + 1) * 1.8)
    let value := (moisture index + waterBonus + flowBonus) / (1 + moistureScale * 0.5)
    min 1 (max 0 value)

/-- `export function classifyBiomes(heightmap, water, temperature, moisture,
width, height, seaLevel)` — the per-cell decision tree. -/
noncomputable def classifyBiomes (heightmap water temperature moisture : ℕ → ℝ)
    (seaLevel : ℝ) : ℕ → ℕ := fun index =>
  let elevation := heightmap index
  if elevation ≤ seaLevel - 0.02 then 0
  else if 0.6 < water index then 1
  else if 0.82 < elevation then 9
  else
    let temp := temperature index
    let moist := moisture index
    if temp < 0.2 then 2
    else if temp < 0.35 then (if 0.4 < moist then 3 else 2)
    else if temp < 0.55 then
      (if 0.55 < moist then 4 else if 0.35 < moist then 5 else 8)
    else if temp < 0.75 then
      (if 0.65 < moist then 4 else if 0.4 < moist then 5 else 7)
    else if 0.7 < moist then 6
    else if 0.45 < moist then 7
    else 8

/-- `export function computeTemperatureField(width, height, heightmap,
seaLevel, lapseRate = 1.5)`. -/
noncomputable def computeTemperatureField (width height : ℕ) (heightmap : ℕ → ℝ)
    (seaLevel : ℝ) (lapseRate : ℝ := 1.5) : ℕ → ℝ := fun index =>
  let y := index / width
  let latitude := (y : ℝ) / (height : ℝ) - 0.5
  let altitudePenalty := min 1 (max 0 (heightmap index - seaLevel) * lapseRate)
  let baseTemperature := max 0 (min 1 (1 - |latitude| * 1.8))
  max 0 (min 1 (baseTemperature - altitudePenalty))

/-- The field bundle returned by `finalizeTerrain` (everything of
`GeneratorResult` except width/height). -/
structure TerrainFields where
  heightmap : ℕ → ℝ
  flow : ℕ → ℝ
  moisture : ℕ → ℝ
  temperature : ℕ → ℝ
  biome : ℕ → ℕ
  water : ℕ → ℝ

/-- `export function finalizeTerrain(width, height, heightmap, baseMoisture,
config)`. -/
noncomputable def finalizeTerrain (width height : ℕ) (heightmap baseMoisture : ℕ → ℝ)
    (seaLevel moistureScale : ℝ) : TerrainFields :=
  let temperature := computeTemperatureField width height heightmap seaLevel
  let fw := buildFlowMap heightmap width height seaLevel
  let flow := fw.1
  let water := fw.2
  let moisture := enhanceMoisture (width * height) baseMoisture water flow moistureScale
  let biome := classifyBiomes heightmap water temperature moisture seaLevel
  ⟨heightmap, flow, moisture, temperature, biome, water⟩

/-- `export function normalizeHeightmap(heightmap)` (list form; the source
scans for min/max starting from `±Infinity`, which for the nonempty arrays in
use is the list minimum/maximum, and guards a zero range with `|| 1`). -/
noncomputable def normalizeHeightmap (heightmap : List ℝ) : List ℝ :=
  let mn := heightmap.foldl min (heightmap.headD 0)
  let mx := heightmap.foldl max (heightmap.headD 0)
  let range := if mx - mn = 0 then 1 else mx - mn
  heightmap.map (fun v => (v - mn) / range)

/-- The 5-tap blur kernel `[0.0625, 0.25, 0.375, 0.25, 0.0625]` as a function
of the tap offset `k ∈ [-2, 2]` (exact binary fractions). -/
def kernel (k : ℤ) : ℚ :=
  if k = -2 then 0.0625 else if k = -1 then 0.25 else if k = 0 then 0.375
  else if k = 1 then 0.25 else if k = 2 then 0.0625 else 0

/-- Horizontal pass of `blurHeightmap`: every cell becomes the kernel sum of
its row neighbours with indices clamped to `[0, width-1]`. -/
def blurPassH {α : Type} [LinearOrderedField α] (heightmap : List α) (width : ℕ) : List α :=
  (List.range heightmap.length).map fun idx =>
    let x := idx % width
    let y := idx / width
    (List.range 5).foldl
      (fun sum k5 =>
        let k : ℤ := (k5 : ℤ) - 2
        let sampleX := (min ((width : ℤ) - 1) (max 0 ((x : ℤ) + k))).toNat
        sum + heightmap.getD (y * width + sampleX) 0 * (kernel k : α))
      0

/-- Vertical pass of `blurHeightmap`: kernel sum over the column with row
indices clamped to `[0, height-1]`. -/
def blurPassV {α : Type} [LinearOrderedField α] (heightmap : List α) (width height : ℕ) : List α :=
  (List.range heightmap.length).map fun idx =>
    let x := idx % width
    let y := idx / width
    (List.range 5).foldl
      (fun sum k5 =>
        let k : ℤ := (k5 : ℤ) - 2
        let sampleY := (min ((height : ℤ) - 1) (max 0 ((y : ℤ) + k))).toNat
        sum + heightmap.getD (sampleY * width + x) 0 * (kernel k : α))
      0

/-- `export function blurHeightmap(heightmap, width, height, passes)`:
`passes` iterations of a horizontal then a vertical 5-tap pass (each pass
reads the snapshot written by the previous one). -/
def blurHeightmap {α : Type} [LinearOrderedField α] (heightmap : List α)
    (width height : ℕ) : ℕ → List α
  | 0 => heightmap
  | passes + 1 => blurPassV (blurPassH (blurHeightmap heightmap width height passes) width) width height

end TerrainProc

/-! ## `src/lib/generators/systems/common.ts` (the claim-relevant part) -/

namespace Common

/-- `export function computeTemperature(heightmap, width, height, seaLevel)`.

The source computes `latitude = y / (height - 1)`; at `height = 1` this is
the JS division `0 / 0 = NaN`, and the NaN propagates through the absolute
value, subtraction and `clamp` into every temperature cell.  NaN is modelled
as `none`; for `height ≠ 1` the division is ordinary and the cell value is
`some` of the clamped temperature. -/
noncomputable def computeTemperature (heightmap : ℕ → ℝ) (width height : ℕ)
    (seaLevel : ℝ) : ℕ → Option ℝ := fun index =>
  let y := index / width
  if height = 1 then none
  else
    let latitude := (y : ℝ) / ((height : ℝ) - 1)
    let latFactor := 1 - |latitude - 0.5| * 2
    let elevation := heightmap index
    let altitudePenalty := if seaLevel < elevation then (elevation - seaLevel) * 1.6 else 0
    some (min 1 (max 0 (latFactor - altitudePenalty)))

end Common

/-! ## `src/lib/workers/generator-utils.ts` -/

namespace GenUtils

variable {α : Type} [LinearOrderedField α]

/-- `export function clamp(value, min, max)` — `Math.min(max, Math.max(min, value))`. -/
def clamp (value mn mx : α) : α := min mx (max mn value)

/-- `export function lerp(a, b, t)`. -/
def lerp (a b t : α) : α := a + (b - a) * t

/-- One entry of `BIOME_MAP`. -/
structure BiomeEntry (α : Type) where
  elevation : α
  moisture : α
  temperature : α
  index : ℕ

/-- `const BIOME_MAP`. -/
def BIOME_MAP : List (BiomeEntry α) :=
  [⟨0.2, 0.5, 1, 0⟩, ⟨0.25, 1, 1, 1⟩, ⟨0.4, 0.4, 0.25, 2⟩, ⟨0.6, 0.7, 0.35, 3⟩,
   ⟨0.6, 0.85, 0.5, 4⟩, ⟨0.65, 0.6, 0.7, 5⟩, ⟨0.7, 0.95, 0.85, 6⟩,
   ⟨0.75, 0.6, 0.9, 7⟩, ⟨0.75, 0.3, 1, 8⟩, ⟨0.95, 0.5, 0.4, 9⟩]

/-- `export function pickBiome(elevation, moisture, temperature)` — elevation
thresholds for ocean/lake, then a nearest-entry scan with weights 2/1/1
(`Number.POSITIVE_INFINITY` initial best score modelled as `none`). -/
def pickBiome (elevation moisture temperature : α) : ℕ :=
  if elevation < 0.18 then 0
  else if elevation < 0.24 then 1
  else
    let best := (BIOME_MAP (α := α)).foldl
      (fun (acc : BiomeEntry α × Option α) candidate =>
        let dElevation := |candidate.elevation - elevation|
        let dMoisture := |candidate.moisture - moisture|
        let dTemperature := |candidate.temperature - temperature|
        let score := dElevation * 2 + dMoisture + dTemperature
        match acc.2 with
        | none => (candidate, some score)
        | some bestScore => if score < bestScore then (candidate, some score) else acc)
      (BIOME_MAP.headD ⟨0, 0, 0, 0⟩, none)
    best.1.index

/-- `export function computeSlopeFlow(heightmap, width, height)` — per cell,
the largest positive height drop to an 8-neighbour. -/
def computeSlopeFlow (heightmap : List α) (width height : ℕ) : List α :=
  (List.range (width * height)).map fun index =>
    let x := index % width
    let y := index / width
    let baseHeight := heightmap.getD index 0
    let slope := TerrainProc.DIRECTIONS.foldl
      (fun slope d =>
        let nx : ℤ := (x : ℤ) + d.1
        let ny : ℤ := (y : ℤ) + d.2
        if nx < 0 ∨ ny < 0 ∨ (width : ℤ) ≤ nx ∨ (height : ℤ) ≤ ny then slope
        else
          let diff := baseHeight - heightmap.getD ((ny * width + nx).toNat) 0
          if slope < diff then diff else slope)
      0
    max 0 slope

/-- `export function normalizeArray(buffer, min = 0, max = 1)` — affine
rescale onto `[min, max]`, returning the buffer unchanged when the value
range is degenerate. -/
def normalizeArray (buffer : List α) (mn mx : α) : List α :=
  let smallest := buffer.foldl min (buffer.headD 0)
  let largest := buffer.foldl max (buffer.headD 0)
  let range := largest - smallest
  if range ≤ 0 then buffer
  else buffer.map fun v => lerp mn mx ((v - smallest) / range)

end GenUtils

/-! ## `src/lib/workers/custom-generators.ts` (the claim-relevant part) -/

namespace CustomGen

/-- Modelled from the spec: the third-party `seedrandom` package (not part of
this repository's sources) provides, for a seed string, a deterministic
pseudo-random stream; `rng.quick()` returns values in `[0, 1)` that are a
pure function of the seed and of the call position.  The stream is modelled
as a fixed seed-and-position-indexed value. -/
noncomputable def rngQuick (seed : ℕ) (call : ℕ) : ℝ :=
  (UtilsNoise.hash2d (seed : ℤ) (call : ℤ) 9001 : ℝ) / 4294967296

/-- `function normalCoord(value, max)`. -/
noncomputable def normalCoord (value mx : ℕ) : ℝ :=
  if mx ≤ 1 then 0 else (value : ℝ) / ((mx : ℝ) - 1)

/-- A settlement record `{id, x, y, size}`. -/
structure Settlement where
  id : ℕ
  x : ℕ
  y : ℕ
  size : ℤ
deriving DecidableEq

/-- `function createSettlements(heightmap, width, height, limit, seaLevel)`:
candidates are the cells strictly above `seaLevel + 0.05`, stably sorted by
descending height (JS sort with comparator `b.height - a.height`), truncated
to `limit` and numbered from 1. -/
noncomputable def createSettlements (heightmap : List ℝ) (width : ℕ)
    (limit : ℕ) (seaLevel : ℝ) : List Settlement :=
  let candidates := (List.range heightmap.length).filterMap fun i =>
    if seaLevel + 0.05 < heightmap.getD i 0 then some (i, heightmap.getD i 0) else none
  let sorted := candidates.mergeSort (fun a b => decide (b.2 ≤ a.2))
  (sorted.take limit).enum.map fun ic =>
    let i := ic.1
    let index := ic.2.1
    let h := ic.2.2
    ⟨i + 1, index % width, index / width, jsRound (GenUtils.lerp 4 10 (GenUtils.clamp h 0 1))⟩

/-- The `settings` record (`Record<string, number>`) of the custom
generators; only the keys read by `generateWeitouDelta` plus the generic
`seaLevel` shaping parameter are modelled, each optional as in the source
(`settings.key ?? default`). -/
structure Settings where
  inletPosition : Option ℝ := none
  tidalAmplitude : Option ℝ := none
  harborCurve : Option ℝ := none
  terraceSteps : Option ℝ := none
  paddyIrrigation : Option ℝ := none
  wallProminence : Option ℝ := none
  seaLevel : Option ℝ := none

/-- `GeneratorParameters` for the custom generators (`part_009` snapshot):
width, height, seed and the settings record. -/
structure Params where
  width : ℕ
  height : ℕ
  seed : ℕ
  settings : Settings

/-- Result record of the custom generators. -/
structure Result where
  width : ℕ
  height : ℕ
  heightmap : List ℝ
  flow : List ℝ
  moisture : List ℝ
  temperature : List ℝ
  biome : List ℕ
  water : List ℝ
  roadGraph : Option (List (ℕ × ℕ))
  settlements : Option (List Settlement)

/-- First-loop cell state of `generateWeitouDelta` (the per-index values
written into `heightmap`, `water`, `moisture`, `temperature`). -/
noncomputable def weitouCell (params : Params) (x y : ℕ) : ℝ × ℝ × ℝ × ℝ :=
  let settings := params.settings
  let width := params.width
  let height := params.height
  let inletPosition := GenUtils.clamp (settings.inletPosition.getD 0.48) 0.3 0.75
  let tidalAmplitude := GenUtils.clamp (settings.tidalAmplitude.getD 0.18) 0.05 0.45
  let harborCurve := GenUtils.clamp (settings.harborCurve.getD 0.55) 0 1
  let terraceSteps : ℤ := max 2 (jsRound (settings.terraceSteps.getD 5))
  let paddyIrrigation := GenUtils.clamp (settings.paddyIrrigation.getD 0.8) 0.2 1.4
  let wallProminence := GenUtils.clamp (settings.wallProminence.getD 0.55) 0.2 0.9
  let coastBias := (rngQuick params.seed 0 - 0.5) * 0.08
  let terraceHeight := 0.025 + paddyIrrigation * 0.01
  let settlementX : ℤ := ⌊(width : ℝ) * GenUtils.lerp 0.4 0.6 harborCurve⌋
  let settlementY : ℤ := ⌊(height : ℝ) * (inletPosition + 0.06)⌋
  let nx := normalCoord x width
  let ny := normalCoord y height
  let tide := Real.sin ((nx + harborCurve * 0.3) * Real.pi * 2) * tidalAmplitude
  let coastline := inletPosition + tide + coastBias
  let deltaDistance := ny - coastline
  let e0 := 0.18 + max 0 (-deltaDistance) * 0.2
  let e1 := if 0 < deltaDistance then e0 + Real.exp (-deltaDistance * 3) * 0.25 else e0
  let terraceBand := GenUtils.clamp (1 - |deltaDistance| * ((terraceSteps : ℝ) * 0.9)) 0 1
  let stepped := (⌊terraceBand * (terraceSteps : ℝ)⌋ : ℝ) * terraceHeight
  let e2 := e1 + stepped
  let riverFan := Real.exp (-(|nx - 0.5| * 3.2) ^ (2 : ℕ)) * Real.exp (-(max 0 deltaDistance) * 5)
  let e3 := e2 + riverFan * 0.35
  let wallDistance := Real.sqrt (((x : ℝ) - (settlementX : ℝ)) ^ (2 : ℕ) +
    ((y : ℝ) - (settlementY : ℝ)) ^ (2 : ℕ)) / (max (width : ℝ) (height : ℝ))
  let e4 := e3 + max 0 (0.12 * wallProminence - wallDistance * 0.4) * wallProminence
  let irrigated := GenUtils.clamp (0.25 - deltaDistance * 1.1) 0 1 * paddyIrrigation
  let tidalWater := GenUtils.clamp (-deltaDistance * (1 + tidalAmplitude * 0.9)) 0 1
  let waterValue := max irrigated tidalWater
  let moistureValue := GenUtils.clamp (irrigated * 0.8 + tidalWater * 0.9 + riverFan * 0.6) 0 1
  let elevationClamped := GenUtils.clamp e4 0 1.4
  let latitude := |0.5 - ny| * 2
  let temperatureValue := GenUtils.clamp
    (0.85 - latitude * 0.7 - elevationClamped * 0.4 + waterValue * 0.15) 0 1
  (elevationClamped, waterValue, moistureValue, temperatureValue)

/-- The first-loop cell records of `generateWeitouDelta`, in index order. -/
noncomputable def weitouCells (params : Params) : List (ℝ × ℝ × ℝ × ℝ) :=
  (List.range (params.width * params.height)).map fun index =>
    weitouCell params (index % params.width) (index / params.width)

/-- The final heightmap of `generateWeitouDelta`: the raw elevations,
normalised only when some cell exceeded 1, then clamped to `[0, 1]`. -/
noncomputable def weitouHeightmap (params : Params) : List ℝ :=
  let rawHeight := (weitouCells params).map (·.1)
  let maxElevation := rawHeight.foldl max 0
  let heightmap1 := if 1 < maxElevation then GenUtils.normalizeArray rawHeight 0 1 else rawHeight
  heightmap1.map fun v => GenUtils.clamp v 0 1

/-- The single settlement of `generateWeitouDelta`, placed at the harbor
position computed from the settings with no reference to the heightmap. -/
noncomputable def weitouSettlement (params : Params) : Settlement :=
  let inletPosition := GenUtils.clamp (params.settings.inletPosition.getD 0.48) 0.3 0.75
  let harborCurve := GenUtils.clamp (params.settings.harborCurve.getD 0.55) 0 1
  let wallProminence := GenUtils.clamp (params.settings.wallProminence.getD 0.55) 0.2 0.9
  let settlementX : ℤ := ⌊(params.width : ℝ) * GenUtils.lerp 0.4 0.6 harborCurve⌋
  let settlementY : ℤ := ⌊(params.height : ℝ) * (inletPosition + 0.06)⌋
  ⟨1, settlementX.toNat, settlementY.toNat, jsRound (GenUtils.lerp 6 14 wallProminence)⟩

/-- `export function generateWeitouDelta(params, settings)` (custom-generator
variant): first loop fills the raw fields, the heightmap is normalised only
when some cell exceeded 1, the final loop clamps everything to `[0,1]` and
classifies biomes, and a single settlement is placed at the harbor position
with two road edges. -/
noncomputable def generateWeitouDelta (params : Params) : Result :=
  let width := params.width
  let height := params.height
  let size := width * height
  let settings := params.settings
  let inletPosition := GenUtils.clamp (settings.inletPosition.getD 0.48) 0.3 0.75
  let cells := weitouCells params
  let water0 := cells.map (·.2.1)
  let moisture0 := cells.map (·.2.2.1)
  let temperature0 := cells.map (·.2.2.2)
  let heightmap := weitouHeightmap params
  let moisture := moisture0.map fun v => GenUtils.clamp v 0 1
  let temperature := temperature0.map fun v => GenUtils.clamp v 0 1
  let water := water0.map fun v => GenUtils.clamp v 0 1
  let biome := (List.range size).map fun i =>
    GenUtils.pickBiome (heightmap.getD i 0) (moisture.getD i 0) (temperature.getD i 0)
  let flow := GenUtils.computeSlopeFlow heightmap width height
  let settlement : Settlement := weitouSettlement params
  let settlementX : ℤ := (settlement.x : ℤ)
  let settlementY : ℤ := ⌊(height : ℝ) * (inletPosition + 0.06)⌋
  let harborNode := max 0 (min ((size : ℤ) - 1)
    ((settlementY - ⌊(height : ℝ) * 0.08⌋) * width + settlementX))
  let villageNode := settlement.y * width + settlement.x
  let terraceNode := min (size - 1) (villageNode + (⌊(width : ℝ) * 0.15⌋).toNat)
  let roadGraph := [(villageNode, harborNode.toNat), (villageNode, terraceNode)]
  { width := width, height := height, heightmap := heightmap, flow := flow
    moisture := moisture, temperature := temperature, biome := biome, water := water
    roadGraph := some roadGraph, settlements := some [settlement] }

end CustomGen

/-! ## `src/lib/generators/continental.ts` -/

namespace Continental

/-- The named parameters read by the continental-blueprint runner from the
`parameters: Record<string, number>` of its `GeneratorContext`. -/
structure Parameters where
  macroScale : ℝ
  ridgeContrast : ℝ
  warpStrength : ℝ
  seaLevel : ℝ
  humidity : ℝ

/-- `GeneratorContext` (width, height, seed and the parameter record). -/
structure Context where
  width : ℕ
  height : ℕ
  seed : ℤ
  parameters : Parameters

/-- Result of the runner: width, height and the finalized terrain fields. -/
structure RunnerResult where
  width : ℕ
  height : ℕ
  terrain : TerrainProc.TerrainFields

/-- Raw heightmap cell of `createContinentalRunner().generate`. -/
noncomputable def heightCell (context : Context) (x y : ℕ) : ℝ :=
  let width := context.width
  let height := context.height
  let seed := context.seed
  let p := context.parameters
  let nx := ((x : ℝ) / (width : ℝ)) * 2 - 1
  let ny := ((y : ℝ) / (height : ℝ)) * 2 - 1
  let w := UtilsNoise.warpCoordinates nx ny seed (p.warpStrength * 0.002) 0.9
  let macroLayer := UtilsNoise.fbmNoise2D (w.1 * p.macroScale) (w.2 * p.macroScale)
    ⟨4, 1.8, 0.55, 0.7, jsXor seed 0x51f5d7⟩
  let ridge := UtilsNoise.ridgedNoise2D (w.1 * 5.2) (w.2 * 5.2)
    ⟨5, 2.05, 0.48, 0.95, jsXor seed 0x77a5b4⟩
  let plateau := UtilsNoise.fbmNoise2D (w.1 * 2.5 + macroLayer * 1.2) (w.2 * 2.5 - macroLayer * 0.7)
    ⟨3, 2, 0.6, 0.85, jsXor seed 0x5c11c9⟩
  macroLayer * 0.55 + plateau * 0.35 + ridge * p.ridgeContrast - 0.15

/-- Moisture-field cell of `createContinentalRunner().generate`. -/
noncomputable def moistureCell (context : Context) (x y : ℕ) : ℝ :=
  let width := context.width
  let height := context.height
  let seed := context.seed
  let p := context.parameters
  let nx := ((x : ℝ) / (width : ℝ)) * 2 - 1
  let ny := ((y : ℝ) / (height : ℝ)) * 2 - 1
  let w := UtilsNoise.warpCoordinates nx ny seed (p.warpStrength * 0.002) 0.9
  let humidityNoise := UtilsNoise.fbmNoise2D (w.1 * 3.1) (w.2 * 3.1)
    ⟨4, 2.1, 0.5, 0.9, jsXor seed 0xa24c7b⟩
  let latitudeInfluence := 1 - |((y : ℝ) / (height : ℝ)) * 2 - 1|
  min 1 (max 0 (p.humidity * 0.5 + humidityNoise * 0.4 + latitudeInfluence * 0.2))

/-- `createContinentalRunner().generate(context)`: raw heightmap and moisture
loops, one blur pass, min-max normalisation, then `finalizeTerrain`. -/
noncomputable def generate (context : Context) : RunnerResult :=
  let width := context.width
  let height := context.height
  let p := context.parameters
  let heightmap0 := (List.range (width * height)).map fun idx =>
    heightCell context (idx % width) (idx / width)
  let moistureField := (List.range (width * height)).map fun idx =>
    moistureCell context (idx % width) (idx / width)
  let heightmap1 := TerrainProc.blurHeightmap heightmap0 width height 1
  let heightmap := TerrainProc.normalizeHeightmap heightmap1
  let terrain := TerrainProc.finalizeTerrain width height
    (fun i => heightmap.getD i 0) (fun i => moistureField.getD i 0)
    p.seaLevel (max 0.5 (p.humidity * 1.2))
  ⟨width, height, terrain⟩

end Continental

/-! ## Concrete instances and spec-side definitions used by the claim
theorems -/

/-- Concrete parameter record used by witnesses. -/
noncomputable def sampleParams : Systems.GeneratorParameters :=
  ⟨Systems.GeneratorType.weitouDelta, 64, 64, 1337, 0.48, 0.9, 80, 2, 1, 1, 1, 0⟩

/-- Parameter record of the C3 counterexample: the weitou-delta family on a
2×4 map, seed 0, `seaLevel = -1` (the generator clamps it up to an effective
sea of 0.15), `riverStrength = 2`, `warpStrength = 0`,
`erosionIterations = 0`, `featureScale = 1`. -/
noncomputable def weitouCexParams : Systems.GeneratorParameters :=
  ⟨Systems.GeneratorType.weitouDelta, 2, 4, 0, -1, 1, 0, 0, 1, 1, 2, 0⟩

/-- Octave loop of the spec-side per-octave ridged formula: the layering of
`fbmLoop` with the contribution replaced by `(1 - |noise|)²`. -/
def UtilsNoise.ridgedSpecLoop {α : Type} [LinearOrderedField α] [FloorRing α]
    (x y : α) (options : UtilsNoise.FbmOptions α) : ℕ → α × α × α × α
  | 0 => (1, 1, 0, 0)
  | n + 1 =>
    let s := UtilsNoise.ridgedSpecLoop x y options n
    let amplitude := s.1
    let frequency := s.2.1
    let value := s.2.2.1
    let totalAmplitude := s.2.2.2
    let noise := UtilsNoise.valueNoise2D (x * frequency) (y * frequency)
      options.scale (options.seed + n * 101)
    let ridge := 1 - |noise * 2 - 1|
    (amplitude * options.gain, frequency * options.lacunarity,
      value + ridge * ridge * amplitude, totalAmplitude + amplitude)

/-- The ridged-fractal computation as the spec's words describe it for the
`utils/noise.ts` stack: the same octave layering as `fbmNoise2D` (same
amplitudes, frequencies and per-octave seed salts), but each octave
contributes `(1 - |noise|)²` of that octave's signed noise sample, the total
normalized by the summed amplitude.  Declared for comparison with the
source's `ridgedNoise2D`. -/
def UtilsNoise.ridgedPerOctaveSpec {α : Type} [LinearOrderedField α] [FloorRing α]
    (x y : α) (options : UtilsNoise.FbmOptions α) : α :=
  let s := UtilsNoise.ridgedSpecLoop x y options options.octaves
  let value := s.2.2.1
  let totalAmplitude := s.2.2.2
  if totalAmplitude ≤ 0 then 0 else value / totalAmplitude

/-- Parameter record of the C5 counterexample: the custom weitou-delta
generator with the sea-level setting at 1 (every heightmap cell is clamped to
at most 1, so no cell is strictly above it). -/
noncomputable def c5cexParams : CustomGen.Params :=
  ⟨4, 4, 0, { seaLevel := some 1 }⟩

/-- Context of the C8 counterexample: the continental-blueprint runner on a
1×1 map with `seaLevel = -5`, far below its documented minimum `0.35`. -/
noncomputable def c8cexContextLow : Continental.Context :=
  ⟨1, 1, 0, ⟨1, 0.5, 0, -5, 0.5⟩⟩

/-- The same context with `seaLevel` at the documented boundary `0.35`. -/
noncomputable def c8cexContextMin : Continental.Context :=
  ⟨1, 1, 0, ⟨1, 0.5, 0, 0.35, 0.5⟩⟩

/-! ## Helper lemmas -/

theorem GenNoise.le_clamp {α : Type} [LinearOrderedField α] [FloorRing α]
    (v a b : α) : a ≤ GenNoise.clamp v a b :=
  le_max_left a _

theorem GenNoise.clamp_le {α : Type} [LinearOrderedField α] [FloorRing α]
    {a b : α} (v : α) (hab : a ≤ b) : GenNoise.clamp v a b ≤ b :=
  max_le hab (min_le_left b v)

theorem GenNoise.clamp_eq_lo {α : Type} [LinearOrderedField α] [FloorRing α]
    {v a b : α} (hv : v ≤ a) : GenNoise.clamp v a b = a := by
  have h1 : min b v ≤ a := le_trans (min_le_right b v) hv
  exact le_antisymm (max_le le_rfl h1) (le_max_left a _)

theorem GenNoise.clamp_eq_hi {α : Type} [LinearOrderedField α] [FloorRing α]
    {v a b : α} (hv : b ≤ v) (hab : a ≤ b) : GenNoise.clamp v a b = b := by
  unfold GenNoise.clamp
  rw [min_eq_left hv, max_eq_right hab]

theorem GenNoise.clamp_eq_self {α : Type} [LinearOrderedField α] [FloorRing α]
    {v a b : α} (ha : a ≤ v) (hb : v ≤ b) : GenNoise.clamp v a b = v := by
  unfold GenNoise.clamp
  rw [min_eq_right hb, max_eq_right ha]

theorem GenUtils.lo_le_clamp {α : Type} [LinearOrderedField α]
    {a b : α} (v : α) (hab : a ≤ b) : a ≤ GenUtils.clamp v a b :=
  le_min hab (le_max_left a v)

theorem GenUtils.clamp_le_hi {α : Type} [LinearOrderedField α]
    (v : α) (a b : α) : GenUtils.clamp v a b ≤ b :=
  min_le_left b _

theorem TerrainProc.flowStep_ge_one (downslope : ℕ → Option ℕ) (flow : ℕ → ℝ)
    (cell : ℕ) (hf : ∀ j, 1 ≤ flow j) :
    ∀ i, 1 ≤ TerrainProc.flowStep downslope flow cell i := by
  intro i
  unfold TerrainProc.flowStep
  cases hds : downslope cell with
  | none => exact hf i
  | some target =>
    by_cases hit : i = target
    · subst hit
      simp only [Function.update_same]
      linarith [hf i, hf cell]
    · simp only [Function.update_noteq hit]
      exact hf i

theorem TerrainProc.le_flowStep (downslope : ℕ → Option ℕ) (flow : ℕ → ℝ)
    (cell : ℕ) (hf : ∀ j, 1 ≤ flow j) :
    ∀ i, flow i ≤ TerrainProc.flowStep downslope flow cell i := by
  intro i
  unfold TerrainProc.flowStep
  cases hds : downslope cell with
  | none => exact le_rfl
  | some target =>
    by_cases hit : i = target
    · subst hit
      simp only [Function.update_same]
      linarith [hf cell]
    · simp only [Function.update_noteq hit]
      exact le_rfl

theorem TerrainProc.accumulateFlow_ge_one (downslope : ℕ → Option ℕ)
    (order : List ℕ) :
    ∀ (flow : ℕ → ℝ), (∀ j, 1 ≤ flow j) →
      ∀ i, 1 ≤ TerrainProc.accumulateFlow downslope order flow i := by
  induction order with
  | nil => exact fun flow hf i => hf i
  | cons a rest ih =>
    intro flow hf i
    exact ih (TerrainProc.flowStep downslope flow a)
      (TerrainProc.flowStep_ge_one downslope flow a hf) i

theorem TerrainProc.le_accumulateFlow (downslope : ℕ → Option ℕ)
    (order : List ℕ) :
    ∀ (flow : ℕ → ℝ), (∀ j, 1 ≤ flow j) →
      ∀ i, flow i ≤ TerrainProc.accumulateFlow downslope order flow i := by
  induction order with
  | nil => exact fun flow _ i => le_rfl
  | cons a rest ih =>
    intro flow hf i
    calc flow i ≤ TerrainProc.flowStep downslope flow a i :=
          TerrainProc.le_flowStep downslope flow a hf i
      _ ≤ _ := ih (TerrainProc.flowStep downslope flow a)
          (TerrainProc.flowStep_ge_one downslope flow a hf) i

theorem TerrainProc.accumulateFlow_target_ge_two (downslope : ℕ → Option ℕ)
    (order : List ℕ) :
    ∀ (flow : ℕ → ℝ), (∀ j, 1 ≤ flow j) → ∀ j t, j ∈ order →
      downslope j = some t →
      2 ≤ TerrainProc.accumulateFlow downslope order flow t := by
  induction order with
  | nil =>
    intro flow _ j t hj _
    exact absurd hj (List.not_mem_nil j)
  | cons a rest ih =>
    intro flow hf j t hj hds
    have hstep := TerrainProc.flowStep_ge_one downslope flow a hf
    rcases List.mem_cons.mp hj with rfl | hrest
    · have h2 : 2 ≤ TerrainProc.flowStep downslope flow j t := by
        unfold TerrainProc.flowStep
        rw [hds]
        simp only [Function.update_same]
        linarith [hf t, hf j]
      calc (2 : ℝ) ≤ TerrainProc.flowStep downslope flow j t := h2
        _ ≤ _ := TerrainProc.le_accumulateFlow downslope rest _ hstep t
    · exact ih (TerrainProc.flowStep downslope flow a) hstep j t hrest hds

theorem le_foldl_max (f : ℕ → ℝ) (l : List ℕ) :
    ∀ init : ℝ, init ≤ l.foldl (fun acc j => max acc (f j)) init := by
  induction l with
  | nil => exact fun init => le_rfl
  | cons a rest ih =>
    intro init
    exact le_trans (le_max_left init (f a)) (ih (max init (f a)))

theorem mem_le_foldl_max (f : ℕ → ℝ) (l : List ℕ) :
    ∀ (init : ℝ) (i : ℕ), i ∈ l →
      f i ≤ l.foldl (fun acc j => max acc (f j)) init := by
  induction l with
  | nil =>
    intro init i hi
    exact absurd hi (List.not_mem_nil i)
  | cons a rest ih =>
    intro init i hi
    rcases List.mem_cons.mp hi with rfl | hrest
    · exact le_trans (le_max_right init (f i)) (le_foldl_max f rest _)
    · exact ih _ i hrest



theorem toUint32_le (n : ℤ) : toUint32 n ≤ 4294967295 := by
  unfold toUint32
  have h1 := Int.emod_nonneg n (by norm_num : (4294967296 : ℤ) ≠ 0)
  have h2 := Int.emod_lt_of_pos n (by norm_num : (0 : ℤ) < 4294967296)
  omega

theorem UtilsNoise.hash_le (v : ℤ) : UtilsNoise.hash v ≤ UtilsNoise.UINT32_MAX := by
  unfold UtilsNoise.hash UtilsNoise.UINT32_MAX
  exact toUint32_le _

theorem UtilsNoise.hash2d_le (x y seed : ℤ) :
    UtilsNoise.hash2d x y seed ≤ UtilsNoise.UINT32_MAX := by
  unfold UtilsNoise.hash2d
  exact UtilsNoise.hash_le _

theorem UtilsNoise.smoothstep_mem {t : ℝ} (h0 : 0 ≤ t) (h1 : t ≤ 1) :
    0 ≤ UtilsNoise.smoothstep t ∧ UtilsNoise.smoothstep t ≤ 1 := by
  unfold UtilsNoise.smoothstep
  have key : (0:ℝ) ≤ (1 - t)^2 * (1 + 2*t) := mul_nonneg (sq_nonneg _) (by linarith)
  constructor <;> nlinarith [key]

theorem UtilsNoise.lerp_mem {a b t : ℝ} (ha0 : 0 ≤ a) (ha1 : a ≤ 1)
    (hb0 : 0 ≤ b) (hb1 : b ≤ 1) (ht0 : 0 ≤ t) (ht1 : t ≤ 1) :
    0 ≤ UtilsNoise.lerp a b t ∧ UtilsNoise.lerp a b t ≤ 1 := by
  unfold UtilsNoise.lerp
  constructor <;> nlinarith

theorem UtilsNoise.hashval_mem (x y seed : ℤ) :
    0 ≤ (UtilsNoise.hash2d x y seed : ℝ) / (UtilsNoise.UINT32_MAX : ℝ) ∧
    (UtilsNoise.hash2d x y seed : ℝ) / (UtilsNoise.UINT32_MAX : ℝ) ≤ 1 := by
  have hpos : (0 : ℝ) < (UtilsNoise.UINT32_MAX : ℝ) := by
    norm_num [UtilsNoise.UINT32_MAX]
  constructor
  · exact div_nonneg (Nat.cast_nonneg _) hpos.le
  · rw [div_le_one hpos]
    exact_mod_cast UtilsNoise.hash2d_le x y seed

theorem UtilsNoise.valueNoise2D_mem (x y scale : ℝ) (seed : ℤ) :
    0 ≤ UtilsNoise.valueNoise2D x y scale seed ∧
    UtilsNoise.valueNoise2D x y scale seed ≤ 1 := by
  simp only [UtilsNoise.valueNoise2D]
  rw [Int.self_sub_floor, Int.self_sub_floor]
  obtain ⟨htx0, htx1⟩ := UtilsNoise.smoothstep_mem (Int.fract_nonneg (x / scale))
    (Int.fract_lt_one (x / scale)).le
  obtain ⟨hty0, hty1⟩ := UtilsNoise.smoothstep_mem (Int.fract_nonneg (y / scale))
    (Int.fract_lt_one (y / scale)).le
  obtain ⟨h00a, h00b⟩ := UtilsNoise.hashval_mem ⌊x / scale⌋ ⌊y / scale⌋ seed
  obtain ⟨h10a, h10b⟩ := UtilsNoise.hashval_mem (⌊x / scale⌋ + 1) ⌊y / scale⌋ seed
  obtain ⟨h01a, h01b⟩ := UtilsNoise.hashval_mem ⌊x / scale⌋ (⌊y / scale⌋ + 1) seed
  obtain ⟨h11a, h11b⟩ := UtilsNoise.hashval_mem (⌊x / scale⌋ + 1) (⌊y / scale⌋ + 1) seed
  obtain ⟨hx0a, hx0b⟩ := UtilsNoise.lerp_mem h00a h00b h10a h10b htx0 htx1
  obtain ⟨hx1a, hx1b⟩ := UtilsNoise.lerp_mem h01a h01b h11a h11b htx0 htx1
  exact UtilsNoise.lerp_mem hx0a hx0b hx1a hx1b hty0 hty1

theorem UtilsNoise.fbmLoop_bounds (x y : ℝ) (o : UtilsNoise.FbmOptions ℝ)
    (hg : 0 ≤ o.gain) (n : ℕ) :
    0 ≤ (UtilsNoise.fbmLoop x y o n).1 ∧
    0 ≤ (UtilsNoise.fbmLoop x y o n).2.2.2 ∧
    |(UtilsNoise.fbmLoop x y o n).2.2.1| ≤ (UtilsNoise.fbmLoop x y o n).2.2.2 := by
  induction n with
  | zero => norm_num [UtilsNoise.fbmLoop]
  | succ k ih =>
    obtain ⟨hA, hT, hV⟩ := ih
    obtain ⟨hn0, hn1⟩ := UtilsNoise.valueNoise2D_mem
      (x * (UtilsNoise.fbmLoop x y o k).2.1) (y * (UtilsNoise.fbmLoop x y o k).2.1)
      o.scale (o.seed + k * 101)
    simp only [UtilsNoise.fbmLoop]
    refine ⟨mul_nonneg hA hg, by linarith, ?_⟩
    have habs : |UtilsNoise.valueNoise2D (x * (UtilsNoise.fbmLoop x y o k).2.1)
        (y * (UtilsNoise.fbmLoop x y o k).2.1) o.scale (o.seed + k * 101) * 2 - 1| ≤ 1 :=
      abs_le.mpr ⟨by linarith, by linarith⟩
    calc |(UtilsNoise.fbmLoop x y o k).2.2.1 +
          (UtilsNoise.valueNoise2D (x * (UtilsNoise.fbmLoop x y o k).2.1)
            (y * (UtilsNoise.fbmLoop x y o k).2.1) o.scale (o.seed + k * 101) * 2 - 1) *
            (UtilsNoise.fbmLoop x y o k).1|
        ≤ |(UtilsNoise.fbmLoop x y o k).2.2.1| +
          |(UtilsNoise.valueNoise2D (x * (UtilsNoise.fbmLoop x y o k).2.1)
            (y * (UtilsNoise.fbmLoop x y o k).2.1) o.scale (o.seed + k * 101) * 2 - 1) *
            (UtilsNoise.fbmLoop x y o k).1| := abs_add _ _
      _ ≤ (UtilsNoise.fbmLoop x y o k).2.2.2 + 1 * (UtilsNoise.fbmLoop x y o k).1 := by
          rw [abs_mul, abs_of_nonneg hA]
          exact add_le_add hV (mul_le_mul_of_nonneg_right habs hA)
      _ = (UtilsNoise.fbmLoop x y o k).2.2.2 + (UtilsNoise.fbmLoop x y o k).1 := by ring

theorem UtilsNoise.abs_fbmNoise2D_le (x y : ℝ) (o : UtilsNoise.FbmOptions ℝ)
    (hg : 0 ≤ o.gain) : |UtilsNoise.fbmNoise2D x y o| ≤ 1 := by
  obtain ⟨hA, hT, hV⟩ := UtilsNoise.fbmLoop_bounds x y o hg o.octaves
  unfold UtilsNoise.fbmNoise2D
  dsimp only
  by_cases h : (UtilsNoise.fbmLoop x y o o.octaves).2.2.2 ≤ 0
  · rw [if_pos h]
    norm_num
  · rw [if_neg h]
    have hTpos : 0 < (UtilsNoise.fbmLoop x y o o.octaves).2.2.2 := lt_of_not_ge h
    rw [abs_div, abs_of_nonneg hT]
    rw [div_le_one hTpos]
    exact hV

theorem clampMap_getD_le_one (l : List ℝ) (i : ℕ) :
    (l.map fun v => GenUtils.clamp v 0 1).getD i 0 ≤ 1 := by
  induction l generalizing i with
  | nil => simp [List.getD_nil]
  | cons a t ih =>
    cases i with
    | zero => simpa using GenUtils.clamp_le_hi a 0 1
    | succ n => simpa using ih n

/-- Every cell of the final weitou heightmap is at most 1 (final clamp). -/
theorem weitouHeightmap_getD_le_one (params : CustomGen.Params) (i : ℕ) :
    (CustomGen.weitouHeightmap params).getD i 0 ≤ 1 := by
  simp only [CustomGen.weitouHeightmap]
  exact clampMap_getD_le_one _ i

theorem generateWeitouDelta_settlements (params : CustomGen.Params) :
    (CustomGen.generateWeitouDelta params).settlements =
      some [CustomGen.weitouSettlement params] := rfl

theorem generateWeitouDelta_heightmap (params : CustomGen.Params) :
    (CustomGen.generateWeitouDelta params).heightmap =
      CustomGen.weitouHeightmap params := rfl

theorem blurPassH_length {α : Type} [LinearOrderedField α] (l : List α) (w : ℕ) :
    (TerrainProc.blurPassH l w).length = l.length := by
  simp [TerrainProc.blurPassH]

theorem blurPassV_length {α : Type} [LinearOrderedField α] (l : List α) (w h : ℕ) :
    (TerrainProc.blurPassV l w h).length = l.length := by
  simp [TerrainProc.blurPassV]

theorem blurHeightmap_length {α : Type} [LinearOrderedField α] (l : List α)
    (w h n : ℕ) : (TerrainProc.blurHeightmap l w h n).length = l.length := by
  induction n with
  | zero => rfl
  | succ k ih =>
    show (TerrainProc.blurPassV (TerrainProc.blurPassH
      (TerrainProc.blurHeightmap l w h k) w) w h).length = l.length
    rw [blurPassV_length, blurPassH_length, ih]

theorem normalizeHeightmap_singleton (v : ℝ) :
    TerrainProc.normalizeHeightmap [v] = [0] := by
  simp [TerrainProc.normalizeHeightmap]

theorem downslopeAt_one_one (hm : ℕ → ℝ) :
    TerrainProc.downslopeAt hm 1 1 0 0 = none := by
  norm_num [TerrainProc.downslopeAt, TerrainProc.DIRECTIONS, List.foldl]

theorem buildFlowMap_zero_one_one (seaLevel : ℝ) :
    (TerrainProc.buildFlowMap (fun i => ([(0 : ℝ)].getD i 0)) 1 1 seaLevel).2 0 =
      if (0 : ℝ) ≤ seaLevel then 1
      else if 0.3 < ((1 : ℝ) / 2) ^ (0.4 : ℝ) then ((1 : ℝ) / 2) ^ (0.4 : ℝ)
      else 0 := by
  have hget : ∀ i : ℕ, ([(0 : ℝ)].getD i 0) = 0 := by
    intro i
    cases i with
    | zero => rfl
    | succ n => rw [List.getD_cons_succ, List.getD_nil]
  have hr1 : List.range (1 * 1) = [0] := rfl
  rw [TerrainProc.buildFlowMap]
  simp only [hget, hr1, List.mergeSort_singleton, TerrainProc.accumulateFlow,
    List.foldl, TerrainProc.flowStep, Nat.zero_mod, Nat.zero_div, downslopeAt_one_one]
  norm_num

theorem getD_mem_bounds (l : List ℝ) (lo hi : ℝ)
    (hbound : ∀ v ∈ l, lo ≤ v ∧ v ≤ hi) (i : ℕ) (hlt : i < l.length) :
    lo ≤ l.getD i 0 ∧ l.getD i 0 ≤ hi := by
  rw [List.getD_eq_getElem l 0 hlt]
  exact hbound _ (List.getElem_mem hlt)

theorem blurPassH_bounds (l : List ℝ) (w h : ℕ) (lo hi : ℝ)
    (hlen : l.length = w * h) (hw : 1 ≤ w)
    (hbound : ∀ v ∈ l, lo ≤ v ∧ v ≤ hi) :
    ∀ v ∈ TerrainProc.blurPassH l w, lo ≤ v ∧ v ≤ hi := by
  intro v hv
  rw [TerrainProc.blurPassH, List.mem_map] at hv
  obtain ⟨idx, hidx, hval⟩ := hv
  rw [List.mem_range, hlen] at hidx
  have hvalid : ∀ k : ℤ,
      idx / w * w + (min ((w : ℤ) - 1) (max 0 ((idx % w : ℕ) + k))).toNat < l.length := by
    intro k
    rw [hlen]
    have hy : idx / w < h := by
      rw [Nat.div_lt_iff_lt_mul (by omega : 0 < w)]
      rw [Nat.mul_comm] at hidx
      exact hidx
    have hsx : (min ((w : ℤ) - 1) (max 0 ((idx % w : ℕ) + k))).toNat < w := by omega
    have h1 : idx / w * w + w ≤ w * h := by
      have h2 : idx / w * w + w = (idx / w + 1) * w := by ring
      have h3 : (idx / w + 1) * w ≤ h * w := Nat.mul_le_mul_right w hy
      rw [h2]
      rw [Nat.mul_comm h w] at h3
      exact h3
    omega
  have tap := fun (k : ℤ) => getD_mem_bounds l lo hi hbound
    (idx / w * w + (min ((w : ℤ) - 1) (max 0 ((idx % w : ℕ) + k))).toNat) (hvalid k)
  have hr5 : List.range 5 = [0, 1, 2, 3, 4] := rfl
  rw [hr5] at hval
  simp only [List.foldl] at hval
  have t0 := tap (((0 : ℕ) : ℤ) - 2)
  have t1 := tap (((1 : ℕ) : ℤ) - 2)
  have t2 := tap (((2 : ℕ) : ℤ) - 2)
  have t3 := tap (((3 : ℕ) : ℤ) - 2)
  have t4 := tap (((4 : ℕ) : ℤ) - 2)
  subst hval
  norm_num [TerrainProc.kernel] at t0 t1 t2 t3 t4 ⊢
  constructor
  · linarith [t0.1, t1.1, t2.1, t3.1, t4.1]
  · linarith [t0.2, t1.2, t2.2, t3.2, t4.2]

theorem blurPassV_bounds (l : List ℝ) (w h : ℕ) (lo hi : ℝ)
    (hlen : l.length = w * h) (hw : 1 ≤ w) (hh : 1 ≤ h)
    (hbound : ∀ v ∈ l, lo ≤ v ∧ v ≤ hi) :
    ∀ v ∈ TerrainProc.blurPassV l w h, lo ≤ v ∧ v ≤ hi := by
  intro v hv
  rw [TerrainProc.blurPassV, List.mem_map] at hv
  obtain ⟨idx, hidx, hval⟩ := hv
  rw [List.mem_range, hlen] at hidx
  have hvalid : ∀ k : ℤ,
      (min ((h : ℤ) - 1) (max 0 ((idx / w : ℕ) + k))).toNat * w + idx % w < l.length := by
    intro k
    rw [hlen]
    have hx : idx % w < w := Nat.mod_lt idx (by omega)
    have hsy : (min ((h : ℤ) - 1) (max 0 ((idx / w : ℕ) + k))).toNat < h := by omega
    have h1 : (min ((h : ℤ) - 1) (max 0 ((idx / w : ℕ) + k))).toNat * w + w ≤ w * h := by
      have h2 : (min ((h : ℤ) - 1) (max 0 ((idx / w : ℕ) + k))).toNat * w + w =
          ((min ((h : ℤ) - 1) (max 0 ((idx / w : ℕ) + k))).toNat + 1) * w := by ring
      have h3 : ((min ((h : ℤ) - 1) (max 0 ((idx / w : ℕ) + k))).toNat + 1) * w ≤ h * w :=
        Nat.mul_le_mul_right w hsy
      rw [h2]
      rw [Nat.mul_comm h w] at h3
      exact h3
    omega
  have tap := fun (k : ℤ) => getD_mem_bounds l lo hi hbound
    ((min ((h : ℤ) - 1) (max 0 ((idx / w : ℕ) + k))).toNat * w + idx % w) (hvalid k)
  have hr5 : List.range 5 = [0, 1, 2, 3, 4] := rfl
  rw [hr5] at hval
  simp only [List.foldl] at hval
  have t0 := tap (((0 : ℕ) : ℤ) - 2)
  have t1 := tap (((1 : ℕ) : ℤ) - 2)
  have t2 := tap (((2 : ℕ) : ℤ) - 2)
  have t3 := tap (((3 : ℕ) : ℤ) - 2)
  have t4 := tap (((4 : ℕ) : ℤ) - 2)
  subst hval
  norm_num [TerrainProc.kernel] at t0 t1 t2 t3 t4 ⊢
  constructor
  · linarith [t0.1, t1.1, t2.1, t3.1, t4.1]
  · linarith [t0.2, t1.2, t2.2, t3.2, t4.2]

/-! ## Claim theorems -/

/-- C1: for fixed `(width, height, seed, parameters)`, two invocations of the
generator entry point `runGenerator` (and of each per-family generate
function it dispatches to) produce bit-identical output arrays: the embedded
generation function is a pure function of the parameter record, with no
hidden state. -/
theorem C1_runGenerator_deterministic (p₁ p₂ : Systems.GeneratorParameters)
    (h : p₁ = p₂) :
    Systems.runGenerator p₁ = Systems.runGenerator p₂ ∧
    Systems.generateContinental p₁ = Systems.generateContinental p₂ ∧
    Systems.generateArchipelago p₁ = Systems.generateArchipelago p₂ ∧
    Systems.generateHighlands p₁ = Systems.generateHighlands p₂ ∧
    Systems.generateWeitouDelta p₁ = Systems.generateWeitouDelta p₂ := by
  subst h
  exact ⟨rfl, rfl, rfl, rfl, rfl⟩

/-- Witness for C1 at a concrete parameter record. -/
theorem C1_runGenerator_deterministic_witness :
    Systems.runGenerator sampleParams = Systems.runGenerator sampleParams ∧
    Systems.generateContinental sampleParams = Systems.generateContinental sampleParams ∧
    Systems.generateArchipelago sampleParams = Systems.generateArchipelago sampleParams ∧
    Systems.generateHighlands sampleParams = Systems.generateHighlands sampleParams ∧
    Systems.generateWeitouDelta sampleParams = Systems.generateWeitouDelta sampleParams :=
  C1_runGenerator_deterministic sampleParams sampleParams rfl

/-- C9 (code bug): at `width = 1, height = 1` the `common.ts` temperature
stage `computeTemperature` computes `latitude = y / (height - 1) = 0 / 0`, a
NaN (modelled as `none`), so the generation paths through `finalizeResult`
produce NaN-corrupted temperatures instead of a well-defined single-cell
result or an explicit error. -/
theorem C9_computeTemperature_div_zero :
    Common.computeTemperature (fun _ => 0) 1 1 (1/2) 0 = none := by
  simp [Common.computeTemperature]

/-- C8 (amended): `generateContinental` clamps `warpStrength` to its
documented range `[0, 400]` before use, so calling it with a negative
`warpStrength` returns a result identical to calling it with the nearest
boundary value `0`.  (The continental-blueprint runner, by contrast, does not
clamp its parameters; see the counterexample.) -/
theorem C8_generateContinental_warp_clamped (gt : Systems.GeneratorType)
    (w h : ℕ) (seed : ℤ) (sl amp ws er fs ms rs tb : ℝ) (hws : ws ≤ 0) :
    Systems.generateContinental ⟨gt, w, h, seed, sl, amp, ws, er, fs, ms, rs, tb⟩ =
    Systems.generateContinental ⟨gt, w, h, seed, sl, amp, 0, er, fs, ms, rs, tb⟩ := by
  have h1 : GenNoise.clamp ws (0 : ℝ) 400 = 0 := GenNoise.clamp_eq_lo hws
  have h2 : GenNoise.clamp (0 : ℝ) 0 400 = 0 := GenNoise.clamp_eq_lo le_rfl
  unfold Systems.generateContinental Systems.continentalCell Systems.applyCell
    Systems.pickBiome
  dsimp only
  rw [h1, h2]

/-- Witness for C8 at a concrete parameter record and `ws = -5`. -/
theorem C8_generateContinental_warp_clamped_witness :
    (-5 : ℝ) ≤ 0 ∧
    Systems.generateContinental
        ⟨Systems.GeneratorType.continental, 8, 8, 7, 0.5, 1, -5, 2, 1, 1, 1, 0⟩ =
      Systems.generateContinental
        ⟨Systems.GeneratorType.continental, 8, 8, 7, 0.5, 1, 0, 2, 1, 1, 1, 0⟩ :=
  ⟨by norm_num,
    C8_generateContinental_warp_clamped Systems.GeneratorType.continental 8 8 7
      0.5 1 (-5) 2 1 1 1 0 (by norm_num)⟩

/-- C2 (amended): the flow array packaged into the result by
`finalizeTerrain` is exactly the array produced by `buildFlowMap`, and that
array is the raw accumulated drainage, not normalized by its maximum: every
cell carries at least its own unit of flow, so `flow[i] ≥ 1` (the
`/ (maxFlow + 1)` normalization is applied only inside the water-runoff
derivation, never to the returned flow array). -/
theorem C2_flow_returned_unnormalized (hm bm : ℕ → ℝ) (w h : ℕ) (sl ms : ℝ)
    (i : ℕ) (hi : i < w * h) :
    (TerrainProc.finalizeTerrain w h hm bm sl ms).flow i =
      (TerrainProc.buildFlowMap hm w h sl).1 i ∧
    1 ≤ (TerrainProc.buildFlowMap hm w h sl).1 i := by
  refine ⟨rfl, ?_⟩
  have := hi
  exact TerrainProc.accumulateFlow_ge_one _ _ (fun _ => 1) (fun _ => le_rfl) i

/-- Witness for C2 on a 1×1 map. -/
theorem C2_flow_returned_unnormalized_witness :
    0 < 1 * 1 ∧
    ((TerrainProc.finalizeTerrain 1 1 (fun _ => 0) (fun _ => 0) (1/2) 1).flow 0 =
      (TerrainProc.buildFlowMap (fun _ => 0) 1 1 (1/2)).1 0 ∧
    1 ≤ (TerrainProc.buildFlowMap (fun _ => 0) 1 1 (1/2)).1 0) :=
  ⟨by decide,
    C2_flow_returned_unnormalized (fun _ => 0) (fun _ => 0) 1 1 (1/2) 1 0 (by decide)⟩

/-- C2 counterexample: on the 2×1 heightmap `[0, 1]` the higher cell drains
into the lower one, so the returned flow at cell 0 is at least 2 — the
returned flow array is not normalized into `[0, 1]`. -/
theorem C2_flow_not_in_unit_interval :
    ¬ (TerrainProc.buildFlowMap (fun i => if i = 0 then 0 else 1) 2 1 (1/2)).1 0 ≤ 1 := by
  have hds : (fun index => TerrainProc.downslopeAt
      (fun i => if i = 0 then (0 : ℝ) else 1) 2 1 (index % 2) (index / 2)) 1 = some 0 := by
    norm_num [TerrainProc.downslopeAt, TerrainProc.DIRECTIONS]
  have hmem : (1 : ℕ) ∈ (List.range (2 * 1)).mergeSort
      (fun a b => decide ((fun i => if i = 0 then (0 : ℝ) else 1) b ≤
        (fun i => if i = 0 then (0 : ℝ) else 1) a)) := by
    have hperm := List.mergeSort_perm (List.range (2 * 1))
      (fun a b => decide ((fun i => if i = 0 then (0 : ℝ) else 1) b ≤
        (fun i => if i = 0 then (0 : ℝ) else 1) a))
    exact hperm.mem_iff.mpr (by decide)
  have h2 : 2 ≤ (TerrainProc.buildFlowMap (fun i => if i = 0 then 0 else 1) 2 1 (1/2)).1 0 :=
    TerrainProc.accumulateFlow_target_ge_two _ _ (fun _ => 1) (fun _ => le_rfl)
      1 0 hmem hds
  linarith

/-- C3 (amended): for the flow-based water derivation `buildFlowMap`, every
cell whose water value equals 1 has heightmap at most the sea-level argument:
above sea level the water value is either 0 or the runoff
`(flow / (maxFlow + 1)) ^ 0.4`, which is strictly below 1 because the flow
never exceeds the maximum flow.  (The per-family water formulas do not
satisfy this — see the counterexample on `generateWeitouDelta`.) -/
theorem C3_buildFlowMap_sea_level_consistency (hm : ℕ → ℝ) (w h : ℕ) (sl : ℝ)
    (i : ℕ) (hi : i < w * h)
    (hw : (TerrainProc.buildFlowMap hm w h sl).2 i = 1) : hm i ≤ sl := by
  by_contra hsl
  have hflow1 : ∀ j, 1 ≤ (TerrainProc.buildFlowMap hm w h sl).1 j :=
    fun j => TerrainProc.accumulateFlow_ge_one _ _ (fun _ => 1) (fun _ => le_rfl) j
  set flow := (TerrainProc.buildFlowMap hm w h sl).1 with hflow
  set maxFlow := (List.range (w * h)).foldl (fun acc j => max acc (flow j)) 0 with hmax
  have hmax0 : (0 : ℝ) ≤ maxFlow := le_foldl_max flow (List.range (w * h)) 0
  have hle : flow i ≤ maxFlow :=
    mem_le_foldl_max flow (List.range (w * h)) 0 i (List.mem_range.mpr hi)
  have hratio0 : 0 ≤ flow i / (maxFlow + 1) :=
    div_nonneg (le_trans (by norm_num) (hflow1 i)) (by linarith)
  have hratio1 : flow i / (maxFlow + 1) < 1 :=
    (div_lt_one (by linarith)).mpr (by linarith)
  have hrunoff : (flow i / (maxFlow + 1)) ^ (0.4 : ℝ) < 1 :=
    Real.rpow_lt_one hratio0 hratio1 (by norm_num)
  have hwater : (TerrainProc.buildFlowMap hm w h sl).2 i =
      (if hm i ≤ sl then (1 : ℝ)
       else if 0.3 < (flow i / (maxFlow + 1)) ^ (0.4 : ℝ)
         then (flow i / (maxFlow + 1)) ^ (0.4 : ℝ) else 0) := rfl
  rw [hwater, if_neg hsl] at hw
  by_cases hr : 0.3 < (flow i / (maxFlow + 1)) ^ (0.4 : ℝ)
  · rw [if_pos hr] at hw
    linarith [hrunoff, hw.le]
  · rw [if_neg hr] at hw
    norm_num at hw

/-- Witness for C3 on a 1×1 map fully below sea level. -/
theorem C3_buildFlowMap_sea_level_consistency_witness :
    (0 < 1 * 1 ∧ (TerrainProc.buildFlowMap (fun _ => 0) 1 1 0).2 0 = 1) ∧
    (fun _ => (0 : ℝ)) 0 ≤ 0 := by
  have hw : (TerrainProc.buildFlowMap (fun _ => (0 : ℝ)) 1 1 0).2 0 = 1 := by
    have : (TerrainProc.buildFlowMap (fun _ => (0 : ℝ)) 1 1 0).2 0 =
        (if (0 : ℝ) ≤ 0 then (1 : ℝ)
         else if 0.3 < (((TerrainProc.buildFlowMap (fun _ => (0 : ℝ)) 1 1 0).1 0) /
             ((List.range (1 * 1)).foldl
               (fun acc j => max acc ((TerrainProc.buildFlowMap (fun _ => (0 : ℝ)) 1 1 0).1 j)) 0 + 1)) ^ (0.4 : ℝ)
           then (((TerrainProc.buildFlowMap (fun _ => (0 : ℝ)) 1 1 0).1 0) /
             ((List.range (1 * 1)).foldl
               (fun acc j => max acc ((TerrainProc.buildFlowMap (fun _ => (0 : ℝ)) 1 1 0).1 j)) 0 + 1)) ^ (0.4 : ℝ)
           else 0) := rfl
    rw [this, if_pos le_rfl]
  exact ⟨⟨by decide, hw⟩,
    C3_buildFlowMap_sea_level_consistency (fun _ => 0) 1 1 0 0 (by decide) hw⟩


/-- Exact value of the farmland fbm sample at the counterexample cell. -/
theorem weitouCexFarmlandFbm : GenNoise.fbm2D (α := ℝ) (-(24/25)) (-(7/30)) 2400 ⟨some 3, some (19/10), some (3/5)⟩ =
    ((-10888072728506678881543914758049680083 : ℝ) / 24596078425645828247070312500000000000) := by
  have v1 : GenNoise.valueNoise2D (α := ℝ) (-(24/25)) (-(7/30)) 2400 =
      (58399093080489607066 : ℝ)/235929599945068359375 := by
    have h1 : GenNoise.hashBits (-1) (-1) 2400 = 577930946 := by decide
    have h2 : GenNoise.hashBits (0) (-1) 2400 = 674739290 := by decide
    have h3 : GenNoise.hashBits (-1) (0) 2400 = 1108875616 := by decide
    have h4 : GenNoise.hashBits (0) (0) 2400 = 1632510650 := by decide
    have f1 : ⌊(-(24/25) : ℝ)⌋ = -1 := by rw [Int.floor_eq_iff]; norm_num
    have f2 : ⌊(-(7/30) : ℝ)⌋ = -1 := by rw [Int.floor_eq_iff]; norm_num
    rw [GenNoise.valueNoise2D, f1, f2]
    rw [GenNoise.hash, GenNoise.hash, GenNoise.hash, GenNoise.hash]
    norm_num [h1, h2, h3, h4, GenNoise.fade, GenNoise.lerp]
  have v2 : GenNoise.valueNoise2D (α := ℝ) (-(228/125)) (-(133/300)) 2401 =
      (1501001025063682852797056701603 : ℝ)/3538943999176025390625000000000 := by
    have h1 : GenNoise.hashBits (-2) (-1) 2401 = 2084400571 := by decide
    have h2 : GenNoise.hashBits (-1) (-1) 2401 = 898518491 := by decide
    have h3 : GenNoise.hashBits (-2) (0) 2401 = 1702018900 := by decide
    have h4 : GenNoise.hashBits (-1) (0) 2401 = 1219521875 := by decide
    have f1 : ⌊(-(228/125) : ℝ)⌋ = -2 := by rw [Int.floor_eq_iff]; norm_num
    have f2 : ⌊(-(133/300) : ℝ)⌋ = -1 := by rw [Int.floor_eq_iff]; norm_num
    rw [GenNoise.valueNoise2D, f1, f2]
    rw [GenNoise.hash, GenNoise.hash, GenNoise.hash, GenNoise.hash]
    norm_num [h1, h2, h3, h4, GenNoise.fade, GenNoise.lerp]
  have v3 : GenNoise.valueNoise2D (α := ℝ) (-(2166/625)) (-(2527/3000)) 2402 =
      (508813771088582391887833943236837466903 : ℝ)/4147199999034404754638671875000000000000 := by
    have h1 : GenNoise.hashBits (-4) (-1) 2402 = 801820138 := by decide
    have h2 : GenNoise.hashBits (-3) (-1) 2402 = 294705074 := by decide
    have h3 : GenNoise.hashBits (-4) (0) 2402 = 1425134838 := by decide
    have h4 : GenNoise.hashBits (-3) (0) 2402 = 468997710 := by decide
    have f1 : ⌊(-(2166/625) : ℝ)⌋ = -4 := by rw [Int.floor_eq_iff]; norm_num
    have f2 : ⌊(-(2527/3000) : ℝ)⌋ = -1 := by rw [Int.floor_eq_iff]; norm_num
    rw [GenNoise.valueNoise2D, f1, f2]
    rw [GenNoise.hash, GenNoise.hash, GenNoise.hash, GenNoise.hash]
    norm_num [h1, h2, h3, h4, GenNoise.fade, GenNoise.lerp]
  rw [GenNoise.fbm2D]
  norm_num [GenNoise.fbmLoop, v1, v2, v3]


theorem weitouCexBranchFbm : GenNoise.fbm2D (α := ℝ) (593/5) (347/10) 2601 ⟨some 3, some (14/5), some (13/20)⟩ =
    ((-1806511112883246945483391081452643 : ℝ) / 3315999999227933585643768310546875) := by
  have v1 : GenNoise.valueNoise2D (α := ℝ) (593/5) (347/10) 2601 =
      (10521627018548713 : ℝ) / 55924053320312500 := by
    have h1 : GenNoise.hashBits 118 34 2601 = 1387605346 := by decide
    have h2 : GenNoise.hashBits 119 34 2601 = 563324771 := by decide
    have h3 : GenNoise.hashBits 118 35 2601 = 1056102492 := by decide
    have h4 : GenNoise.hashBits 119 35 2601 = 687872309 := by decide
    have f1 : ⌊(593/5:ℝ)⌋ = 118 := by rw [Int.floor_eq_iff]; norm_num
    have f2 : ⌊(347/10:ℝ)⌋ = 34 := by rw [Int.floor_eq_iff]; norm_num
    rw [GenNoise.valueNoise2D, f1, f2]
    rw [GenNoise.hash, GenNoise.hash, GenNoise.hash, GenNoise.hash]
    norm_num [h1, h2, h3, h4, GenNoise.fade, GenNoise.lerp]
  have v2 : GenNoise.valueNoise2D (α := ℝ) (8302/25) (2429/25) 2602 =
      (17877550733353196197223 : ℝ) / 136533333301544189453125 := by
    have h1 : GenNoise.hashBits 332 97 2602 = 564756165 := by decide
    have h2 : GenNoise.hashBits 333 97 2602 = 1166923745 := by decide
    have h3 : GenNoise.hashBits 332 98 2602 = 401208115 := by decide
    have h4 : GenNoise.hashBits 333 98 2602 = 1644009398 := by decide
    have f1 : ⌊(8302/25:ℝ)⌋ = 332 := by rw [Int.floor_eq_iff]; norm_num
    have f2 : ⌊(2429/25:ℝ)⌋ = 97 := by rw [Int.floor_eq_iff]; norm_num
    rw [GenNoise.valueNoise2D, f1, f2]
    rw [GenNoise.hash, GenNoise.hash, GenNoise.hash, GenNoise.hash]
    norm_num [h1, h2, h3, h4, GenNoise.fade, GenNoise.lerp]
  have v3 : GenNoise.valueNoise2D (α := ℝ) (116228/125) (34006/125) 2603 =
      (1878944518128699977185990322764 : ℝ) / 3999999999068677425384521484375 := by
    have h1 : GenNoise.hashBits 929 272 2603 = 1110184888 := by decide
    have h2 : GenNoise.hashBits 930 272 2603 = 2057155948 := by decide
    have h3 : GenNoise.hashBits 929 273 2603 = 2062325999 := by decide
    have h4 : GenNoise.hashBits 930 273 2603 = 1308228352 := by decide
    have f1 : ⌊(116228/125:ℝ)⌋ = 929 := by rw [Int.floor_eq_iff]; norm_num
    have f2 : ⌊(34006/125:ℝ)⌋ = 272 := by rw [Int.floor_eq_iff]; norm_num
    rw [GenNoise.valueNoise2D, f1, f2]
    rw [GenNoise.hash, GenNoise.hash, GenNoise.hash, GenNoise.hash]
    norm_num [h1, h2, h3, h4, GenNoise.fade, GenNoise.lerp]
  rw [GenNoise.fbm2D]
  norm_num [GenNoise.fbmLoop, v1, v2, v3]



set_option maxHeartbeats 16000000 in


set_option maxHeartbeats 1000000 in
/-- Field values of the weitou-delta cell `(x, y) = (0, 1)` of the C3
counterexample: the river mask and distributary bonuses drive the water to 1
while the elevation clamps to 0. -/
theorem weitouCexCell :
    (Systems.weitouDeltaCell weitouCexParams 0 1).water = 1 ∧
    (Systems.weitouDeltaCell weitouCexParams 0 1).heightmap = 0 := by
  have h_fs : Systems.Weitou.featureScale weitouCexParams = 1 := by
    norm_num [Systems.Weitou.featureScale, GenNoise.clamp, weitouCexParams]
  have h_warp : Systems.Weitou.warp weitouCexParams = 0 := by
    norm_num [Systems.Weitou.warp, GenNoise.clamp, weitouCexParams]
  have h_sm : Systems.Weitou.smoothing weitouCexParams = 0 := by
    norm_num [Systems.Weitou.smoothing, GenNoise.clamp, weitouCexParams]
  have h_amp : Systems.Weitou.amplitude weitouCexParams = 1 := by
    norm_num [Systems.Weitou.amplitude, GenNoise.clamp, weitouCexParams]
  have h_rs : Systems.Weitou.relativeSea weitouCexParams = 0.15 := by
    norm_num [Systems.Weitou.relativeSea, GenNoise.clamp, weitouCexParams]
  have h_rf : Systems.Weitou.riverFactor weitouCexParams = 2 := by
    norm_num [Systems.Weitou.riverFactor, GenNoise.clamp, weitouCexParams]
  have h_ny : Systems.Weitou.ny weitouCexParams 1 = 1/3 := by
    norm_num [Systems.Weitou.ny, weitouCexParams]
  have h_py : Systems.Weitou.py weitouCexParams 1 = -(1/6) := by
    norm_num [Systems.Weitou.py, h_ny]
  have h_px : Systems.Weitou.px weitouCexParams 0 = -(1/2) := by
    norm_num [Systems.Weitou.px, Systems.Weitou.nx, weitouCexParams]
  have h_warped : Systems.Weitou.warped weitouCexParams 0 1 = (-(3/5), -(1/6)) := by
    rw [Systems.Weitou.warped, h_px, h_py, h_fs, h_warp]
    rw [GenNoise.domainWarp]
    norm_num [weitouCexParams]
  have h_far : Systems.Weitou.farmland weitouCexParams 0 1 =
      ((-10888072728506678881543914758049680083 : ℝ) / 24596078425645828247070312500000000000) := by
    rw [Systems.Weitou.farmland, h_warped, h_sm]
    norm_num [weitouCexParams, weitouCexFarmlandFbm]
  have h_me : Systems.Weitou.meander weitouCexParams 0 = 0 := by
    rw [Systems.Weitou.meander, h_px, h_fs]
    norm_num [weitouCexParams, Real.sin_zero]
  have h_bn : Systems.Weitou.branchNoise weitouCexParams 0 1 =
      ((-1806511112883246945483391081452643 : ℝ) / 3315999999227933585643768310546875) := by
    rw [Systems.Weitou.branchNoise, h_px, h_ny]
    norm_num [weitouCexParams, weitouCexBranchFbm]
  have h_rm : Systems.Weitou.riverMask weitouCexParams 0 1 =
      (3783451852432779641378524962504887 : ℝ) / 4421333332303911447525024414062500 := by
    rw [Systems.Weitou.riverMask, Systems.Weitou.riverDistance, Systems.Weitou.riverCenter,
      Systems.Weitou.channelWidth, h_me, h_bn, h_py, h_rf]
    norm_num [GenNoise.clamp, abs_of_nonneg, abs_of_nonpos]
  have h_di : Systems.Weitou.distributaries weitouCexParams 0 1 =
      (11691214810630910424959060486713863 : ℝ) / 22106666661519557237625122070312500 := by
    rw [Systems.Weitou.distributaries, h_bn, h_rm]
    norm_num [GenNoise.clamp]
  have h_e0 : Systems.Weitou.elevation0 weitouCexParams 0 1 = 0 := by
    rw [Systems.Weitou.elevation0, h_far, h_ny, h_rm]
    norm_num [GenNoise.clamp]
  have h_el : Systems.Weitou.elevation weitouCexParams 0 1 = 0 := by
    rw [Systems.Weitou.elevation, h_e0, h_sm, h_amp]
    rw [Real.zero_rpow (by norm_num)]
    norm_num
  have h_tw : Systems.Weitou.tidalWater weitouCexParams 1 = 0 := by
    rw [Systems.Weitou.tidalWater, h_ny]
    norm_num [GenNoise.smoothstep, GenNoise.clamp]
  have h_wa : Systems.Weitou.water weitouCexParams 0 1 = 1 := by
    rw [Systems.Weitou.water, h_rs, h_tw, h_el, h_rm, h_di, h_rf]
    norm_num [GenNoise.clamp]
  constructor
  · show (Systems.applyCell _ _ _ _ _ _).water = 1
    unfold Systems.applyCell
    rw [h_wa]
    norm_num [GenNoise.clamp]
  · show (Systems.applyCell _ _ _ _ _ _).heightmap = 0
    unfold Systems.applyCell
    rw [h_el]
    norm_num [GenNoise.clamp]

/-- C3 counterexample: in `generateWeitouDelta` with `seaLevel = -1`, the
cell with index 2 has `water = 1` but `heightmap = 0 > seaLevel`: the
per-family water formula adds river-mask and distributary bonuses (and
clamps the sea-level parameter before use), so `water == 1` does not imply
`heightmap ≤ seaLevelParameter`. -/
theorem C3_weitou_water_above_sea_level :
    (Systems.generateWeitouDelta weitouCexParams).water 2 = 1 ∧
    ¬ (Systems.generateWeitouDelta weitouCexParams).heightmap 2 ≤
        weitouCexParams.seaLevel := by
  have hw : (Systems.generateWeitouDelta weitouCexParams).water 2 =
      (Systems.weitouDeltaCell weitouCexParams 0 1).water := by
    unfold Systems.generateWeitouDelta Systems.assemble
    norm_num [weitouCexParams]
  have hh : (Systems.generateWeitouDelta weitouCexParams).heightmap 2 =
      (Systems.weitouDeltaCell weitouCexParams 0 1).heightmap := by
    unfold Systems.generateWeitouDelta Systems.assemble
    norm_num [weitouCexParams]
  refine ⟨hw.trans weitouCexCell.1, ?_⟩
  rw [hh, weitouCexCell.2]
  show ¬ (0 : ℝ) ≤ weitouCexParams.seaLevel
  norm_num [weitouCexParams]


set_option maxRecDepth 10000 in
/-- Exact value of the first-octave noise sample of the C6 counterexample. -/
theorem warpCexNoise1 : UtilsNoise.valueNoise2D (α := ℝ) (137/100) (-(91/100)) 1 (-559038738) =
    (415075279311418108247/1073741823750000000000 : ℝ) := by
  have h1 : UtilsNoise.hash2d (1) (-1) (-559038738) = 756326365 := by decide
  have h2 : UtilsNoise.hash2d (2) (-1) (-559038738) = 3746449058 := by decide
  have h3 : UtilsNoise.hash2d (1) (0) (-559038738) = 163778481 := by decide
  have h4 : UtilsNoise.hash2d (2) (0) (-559038738) = 2076202305 := by decide
  have f1 : ⌊(137/100 : ℝ)/1⌋ = 1 := by rw [Int.floor_eq_iff]; norm_num
  have f2 : ⌊(-(91/100) : ℝ)/1⌋ = -1 := by rw [Int.floor_eq_iff]; norm_num
  rw [UtilsNoise.valueNoise2D, f1, f2]
  norm_num [h1, h2, h3, h4, UtilsNoise.smoothstep, UtilsNoise.lerp, UtilsNoise.UINT32_MAX]

set_option maxRecDepth 10000 in
/-- Exact value of the second-octave noise sample of the C6 counterexample. -/
theorem warpCexNoise2 : UtilsNoise.valueNoise2D (α := ℝ) (2877/1000) (-(1911/1000)) 1 (-559038637) =
    (236959682518333415360816003/536870911875000000000000000 : ℝ) := by
  have h1 : UtilsNoise.hash2d (2) (-2) (-559038637) = 3890152758 := by decide
  have h2 : UtilsNoise.hash2d (3) (-2) (-559038637) = 1777929561 := by decide
  have h3 : UtilsNoise.hash2d (2) (-1) (-559038637) = 2572882063 := by decide
  have h4 : UtilsNoise.hash2d (3) (-1) (-559038637) = 3223583744 := by decide
  have f1 : ⌊(2877/1000 : ℝ)/1⌋ = 2 := by rw [Int.floor_eq_iff]; norm_num
  have f2 : ⌊(-(1911/1000) : ℝ)/1⌋ = -2 := by rw [Int.floor_eq_iff]; norm_num
  rw [UtilsNoise.valueNoise2D, f1, f2]
  norm_num [h1, h2, h3, h4, UtilsNoise.smoothstep, UtilsNoise.lerp, UtilsNoise.UINT32_MAX]

set_option maxRecDepth 10000 in
/-- Exact value of the third-octave noise sample of the C6 counterexample. -/
theorem warpCexNoise3 : UtilsNoise.valueNoise2D (α := ℝ) (60417/10000) (-(40131/10000)) 1 (-559038536) =
    (206036056044211595019789386097/526344031250000000000000000000 : ℝ) := by
  have h1 : UtilsNoise.hash2d (6) (-5) (-559038536) = 910573842 := by decide
  have h2 : UtilsNoise.hash2d (7) (-5) (-559038536) = 2284578295 := by decide
  have h3 : UtilsNoise.hash2d (6) (-4) (-559038536) = 1668446502 := by decide
  have h4 : UtilsNoise.hash2d (7) (-4) (-559038536) = 4270690595 := by decide
  have f1 : ⌊(60417/10000 : ℝ)/1⌋ = 6 := by rw [Int.floor_eq_iff]; norm_num
  have f2 : ⌊(-(40131/10000) : ℝ)/1⌋ = -5 := by rw [Int.floor_eq_iff]; norm_num
  rw [UtilsNoise.valueNoise2D, f1, f2]
  norm_num [h1, h2, h3, h4, UtilsNoise.smoothstep, UtilsNoise.lerp, UtilsNoise.UINT32_MAX]

/-- Exact value of the x-displacement fbm of `warpCoordinates` at
`(x, y, seed, scale) = (0, 0, 1, 1)`. -/
theorem warpCexFbm : UtilsNoise.fbmNoise2D (α := ℝ) (137/100) (-(91/100))
    ⟨3, 21/10, 1/2, 1, -559038738⟩ =
    (-(18241074536895056293209141009053 : ℝ) / 93952409578125000000000000000000) := by
  rw [UtilsNoise.fbmNoise2D]
  norm_num [UtilsNoise.fbmLoop, warpCexNoise1, warpCexNoise2, warpCexNoise3]

/-- C6 (amended): `domainWarp` (generation/noise.ts) short-circuits to the
identity for every `strength ≤ 0`; `warpCoordinates` (utils/noise.ts)
short-circuits only on `strength === 0` — its identity behaviour at exactly
zero is stated here, and negative strength displaces the coordinates (see
the counterexample). -/
theorem C6_warp_identity (x y scale : ℝ) (seed : ℤ) (strength : ℝ)
    (h : strength ≤ 0) :
    GenNoise.domainWarp x y seed strength scale = (x, y) ∧
    UtilsNoise.warpCoordinates x y seed 0 scale = (x, y) := by
  constructor
  · rw [GenNoise.domainWarp]
    exact if_pos h
  · rw [UtilsNoise.warpCoordinates]
    exact if_pos rfl

/-- Witness for C6 at `strength = -1`. -/
theorem C6_warp_identity_witness :
    (-1 : ℝ) ≤ 0 ∧
    (GenNoise.domainWarp (0.25 : ℝ) 0.75 9 (-1) 1 = (0.25, 0.75) ∧
      UtilsNoise.warpCoordinates (0.25 : ℝ) 0.75 9 0 1 = (0.25, 0.75)) :=
  ⟨by norm_num, C6_warp_identity 0.25 0.75 1 9 (-1) (by norm_num)⟩

/-- C6 counterexample: `warpCoordinates` with the strictly negative strength
`-1` does not return its input unchanged — at `(x, y, seed, scale) =
(0, 0, 1, 1)` the warped x-coordinate is nonzero. -/
theorem C6_warpCoordinates_negative_strength :
    UtilsNoise.warpCoordinates (α := ℝ) 0 0 1 (-1) 1 ≠ (0, 0) := by
  have h1 : (UtilsNoise.warpCoordinates (α := ℝ) 0 0 1 (-1) 1).1 =
      (18241074536895056293209141009053 : ℝ) / 93952409578125000000000000000000 := by
    rw [UtilsNoise.warpCoordinates, if_neg (by norm_num : ¬ (-1 : ℝ) = 0)]
    have hseed : jsXor 1 0xdeadbeef = -559038738 := by decide
    norm_num [hseed, warpCexFbm]
  intro heq
  have h2 := congrArg Prod.fst heq
  rw [h1] at h2
  norm_num at h2

set_option maxRecDepth 10000 in
/-- Exact value of a noise sample used by the C7 counterexample. -/
theorem ridgedCexNoiseA1 : UtilsNoise.valueNoise2D (α := ℝ) (3/10) (7/10) 1 (7) = (47522054403424/67108863984375 : ℝ) := by
  have h1 : UtilsNoise.hash2d (0) (0) (7) = 2340302678 := by decide
  have h2 : UtilsNoise.hash2d (1) (0) (7) = 1935653894 := by decide
  have h3 : UtilsNoise.hash2d (0) (1) (7) = 4116798406 := by decide
  have h4 : UtilsNoise.hash2d (1) (1) (7) = 143911541 := by decide
  have f1 : ⌊(3/10 : ℝ)/1⌋ = 0 := by rw [Int.floor_eq_iff]; norm_num
  have f2 : ⌊(7/10 : ℝ)/1⌋ = 0 := by rw [Int.floor_eq_iff]; norm_num
  rw [UtilsNoise.valueNoise2D, f1, f2]
  norm_num [h1, h2, h3, h4, UtilsNoise.smoothstep, UtilsNoise.lerp, UtilsNoise.UINT32_MAX]

set_option maxRecDepth 10000 in
/-- Exact value of a noise sample used by the C7 counterexample. -/
theorem ridgedCexNoiseA2 : UtilsNoise.valueNoise2D (α := ℝ) (3/5) (7/5) 1 (108) = (29209804663993/67108863984375 : ℝ) := by
  have h1 : UtilsNoise.hash2d (0) (1) (108) = 1386155440 := by decide
  have h2 : UtilsNoise.hash2d (1) (1) (108) = 2490767153 := by decide
  have h3 : UtilsNoise.hash2d (0) (2) (108) = 2642922898 := by decide
  have h4 : UtilsNoise.hash2d (1) (2) (108) = 788699398 := by decide
  have f1 : ⌊(3/5 : ℝ)/1⌋ = 0 := by rw [Int.floor_eq_iff]; norm_num
  have f2 : ⌊(7/5 : ℝ)/1⌋ = 1 := by rw [Int.floor_eq_iff]; norm_num
  rw [UtilsNoise.valueNoise2D, f1, f2]
  norm_num [h1, h2, h3, h4, UtilsNoise.smoothstep, UtilsNoise.lerp, UtilsNoise.UINT32_MAX]

set_option maxRecDepth 10000 in
/-- Exact value of a noise sample used by the C7 counterexample. -/
theorem ridgedCexNoiseB1 : UtilsNoise.valueNoise2D (α := ℝ) (5/2) (1/2) 1 (2) = (830219561/2863311530 : ℝ) := by
  have h1 : UtilsNoise.hash2d (2) (0) (2) = 726630725 := by decide
  have h2 : UtilsNoise.hash2d (3) (0) (2) = 3786278 := by decide
  have h3 : UtilsNoise.hash2d (2) (1) (2) = 2746552393 := by decide
  have h4 : UtilsNoise.hash2d (3) (1) (2) = 1504347970 := by decide
  have f1 : ⌊(5/2 : ℝ)/1⌋ = 2 := by rw [Int.floor_eq_iff]; norm_num
  have f2 : ⌊(1/2 : ℝ)/1⌋ = 0 := by rw [Int.floor_eq_iff]; norm_num
  rw [UtilsNoise.valueNoise2D, f1, f2]
  norm_num [h1, h2, h3, h4, UtilsNoise.smoothstep, UtilsNoise.lerp, UtilsNoise.UINT32_MAX]

set_option maxRecDepth 10000 in
/-- Exact value of a noise sample used by the C7 counterexample. -/
theorem ridgedCexNoiseB2 : UtilsNoise.valueNoise2D (α := ℝ) (5) (1) 1 (103) = (2915937866/4294967295 : ℝ) := by
  have h1 : UtilsNoise.hash2d (5) (1) (103) = 2915937866 := by decide
  have h2 : UtilsNoise.hash2d (6) (1) (103) = 1414715021 := by decide
  have h3 : UtilsNoise.hash2d (5) (2) (103) = 1681930396 := by decide
  have h4 : UtilsNoise.hash2d (6) (2) (103) = 219846727 := by decide
  have f1 : ⌊(5 : ℝ)/1⌋ = 5 := by rw [Int.floor_eq_iff]; norm_num
  have f2 : ⌊(1 : ℝ)/1⌋ = 1 := by rw [Int.floor_eq_iff]; norm_num
  rw [UtilsNoise.valueNoise2D, f1, f2]
  norm_num [h1, h2, h3, h4, UtilsNoise.smoothstep, UtilsNoise.lerp, UtilsNoise.UINT32_MAX]

/-- C7 (amended): `ridgedFbm2D` clamps its normalized per-octave sum into
`[0, 1]`; `ridgedNoise2D` is computed as `1 - |fbmNoise2D|` — a single
global fold, not a per-octave transform — and lies in `[0, 1]` whenever the
octave gain is nonnegative (for negative gain it can leave the interval; see
the counterexample). -/
theorem C7_ridged_range (x y : ℝ) (seed : ℤ) (gopts : GenNoise.FbmOptions ℝ)
    (uopts : UtilsNoise.FbmOptions ℝ) (hoct : 1 ≤ uopts.octaves)
    (hg : 0 ≤ uopts.gain) :
    (0 ≤ GenNoise.ridgedFbm2D x y seed gopts ∧
      GenNoise.ridgedFbm2D x y seed gopts ≤ 1) ∧
    UtilsNoise.ridgedNoise2D x y uopts = 1 - |UtilsNoise.fbmNoise2D x y uopts| ∧
    (0 ≤ UtilsNoise.ridgedNoise2D x y uopts ∧
      UtilsNoise.ridgedNoise2D x y uopts ≤ 1) := by
  have hone := hoct
  refine ⟨?_, rfl, ?_⟩
  · unfold GenNoise.ridgedFbm2D
    dsimp only
    split
    · norm_num
    · exact ⟨GenNoise.le_clamp _ 0 1, GenNoise.clamp_le _ (by norm_num)⟩
  · have h := UtilsNoise.abs_fbmNoise2D_le x y uopts hg
    have h0 : 0 ≤ |UtilsNoise.fbmNoise2D x y uopts| := abs_nonneg _
    simp only [UtilsNoise.ridgedNoise2D]
    exact ⟨by linarith, by linarith⟩

/-- Witness for C7 at a concrete sample point and options. -/
theorem C7_ridged_range_witness :
    (1 ≤ (3 : ℕ) ∧ (0 : ℝ) ≤ 0.5) ∧
    ((0 ≤ GenNoise.ridgedFbm2D (0.3 : ℝ) 0.7 7 ⟨some 5, some 2, some 0.6⟩ ∧
      GenNoise.ridgedFbm2D (0.3 : ℝ) 0.7 7 ⟨some 5, some 2, some 0.6⟩ ≤ 1) ∧
    UtilsNoise.ridgedNoise2D (0.3 : ℝ) 0.7 ⟨3, 2.1, 0.5, 1, 7⟩ =
      1 - |UtilsNoise.fbmNoise2D (0.3 : ℝ) 0.7 ⟨3, 2.1, 0.5, 1, 7⟩| ∧
    (0 ≤ UtilsNoise.ridgedNoise2D (0.3 : ℝ) 0.7 ⟨3, 2.1, 0.5, 1, 7⟩ ∧
      UtilsNoise.ridgedNoise2D (0.3 : ℝ) 0.7 ⟨3, 2.1, 0.5, 1, 7⟩ ≤ 1)) :=
  ⟨⟨by decide, by norm_num⟩,
    C7_ridged_range 0.3 0.7 7 ⟨some 5, some 2, some 0.6⟩ ⟨3, 2.1, 0.5, 1, 7⟩
      (by decide) (by norm_num)⟩

/-- C7 counterexample: `ridgedNoise2D` is not the per-octave
`(1-|noise|)²` sum (the two computations differ at a concrete input), and
with a negative gain (`octaves = 2, gain = -0.5`) its output is negative,
outside `[0, 1]`. -/
theorem C7_ridgedNoise2D_not_per_octave :
    UtilsNoise.ridgedNoise2D (α := ℝ) 0.3 0.7 ⟨2, 2, 0.5, 1, 7⟩ ≠
      UtilsNoise.ridgedPerOctaveSpec 0.3 0.7 ⟨2, 2, 0.5, 1, 7⟩ ∧
    UtilsNoise.ridgedNoise2D (α := ℝ) 2.5 0.5 ⟨2, 2, -0.5, 1, 2⟩ < 0 := by
  have hfbmA : UtilsNoise.fbmNoise2D (α := ℝ) (3/10) (7/10) ⟨2, 2, 1/2, 1, 7⟩ =
      (5242359443173 : ℝ) / 22369621328125 := by
    rw [UtilsNoise.fbmNoise2D]
    norm_num [UtilsNoise.fbmLoop, ridgedCexNoiseA1, ridgedCexNoiseA2]
  have hfbmB : UtilsNoise.fbmNoise2D (α := ℝ) (5/2) (1/2) ⟨2, 2, -(1/2), 1, 2⟩ =
      (-(5145525661 : ℝ)) / 4294967295 := by
    rw [UtilsNoise.fbmNoise2D]
    norm_num [UtilsNoise.fbmLoop, ridgedCexNoiseB1, ridgedCexNoiseB2]
  have hA : UtilsNoise.ridgedNoise2D (α := ℝ) 0.3 0.7 ⟨2, 2, 0.5, 1, 7⟩ =
      (17127261884952 : ℝ) / 22369621328125 := by
    unfold UtilsNoise.ridgedNoise2D
    norm_num [hfbmA, abs_of_nonneg]
  have hspecA : UtilsNoise.ridgedPerOctaveSpec (α := ℝ) 0.3 0.7 ⟨2, 2, 0.5, 1, 7⟩ =
      (2160665210172659989433110468 : ℝ) / 4503599625273344000244140625 := by
    rw [UtilsNoise.ridgedPerOctaveSpec]
    norm_num [UtilsNoise.ridgedSpecLoop, ridgedCexNoiseA1, ridgedCexNoiseA2,
      abs_of_nonneg, abs_of_nonpos]
  have hB : UtilsNoise.ridgedNoise2D (α := ℝ) 2.5 0.5 ⟨2, 2, -0.5, 1, 2⟩ =
      (-(850558366 : ℝ)) / 4294967295 := by
    unfold UtilsNoise.ridgedNoise2D
    norm_num [hfbmB, abs_of_nonpos]
  constructor
  · rw [hA, hspecA]
    norm_num
  · rw [hB]
    norm_num

/-- C5 (amended): every settlement returned by `createSettlements` sits on a
cell whose heightmap value strictly exceeds the sea-level parameter (indeed
exceeds `seaLevel + 0.05`).  The weitou-delta custom settlement is placed at
the harbor position with no height check and does not satisfy this — see the
counterexample. -/
theorem C5_createSettlements_above_sea (heightmap : List ℝ) (width limit : ℕ)
    (seaLevel : ℝ) (s : CustomGen.Settlement)
    (hs : s ∈ CustomGen.createSettlements heightmap width limit seaLevel) :
    seaLevel < heightmap.getD (s.y * width + s.x) 0 := by
  simp only [CustomGen.createSettlements, List.mem_map] at hs
  obtain ⟨ic, hic, hmap⟩ := hs
  have h2 : ic.2 ∈ ((List.range heightmap.length).filterMap fun i =>
      if seaLevel + 0.05 < heightmap.getD i 0 then some (i, heightmap.getD i 0)
      else none) := by
    have hmem : ic.2 ∈ (((List.range heightmap.length).filterMap fun i =>
        if seaLevel + 0.05 < heightmap.getD i 0 then some (i, heightmap.getD i 0)
        else none).mergeSort fun a b => decide (b.2 ≤ a.2)) := by
      have h := List.mem_map_of_mem Prod.snd hic
      rw [List.enum_map_snd] at h
      exact List.mem_of_mem_take h
    exact (List.Perm.mem_iff (List.mergeSort_perm _ _)).1 hmem
  rw [List.mem_filterMap] at h2
  obtain ⟨i, _, hi⟩ := h2
  by_cases hcond : seaLevel + 0.05 < heightmap.getD i 0
  · rw [if_pos hcond] at hi
    have hpair := Option.some.inj hi
    have hfst : ic.2.1 = i := by rw [← hpair]
    subst hmap
    simp only
    rw [hfst, Nat.div_add_mod' i width]
    linarith
  · rw [if_neg hcond] at hi
    exact absurd hi (by simp)

/-- C5 witness: on the single-cell heightmap `[1]` with sea level `0.4` the
unique settlement is at cell 0 and its height 1 exceeds the sea level. -/
theorem C5_createSettlements_above_sea_witness :
    (⟨1, 0, 0, 10⟩ : CustomGen.Settlement) ∈
        CustomGen.createSettlements [1] 1 1 0.4 ∧
      (0.4 : ℝ) < [(1 : ℝ)].getD (0 * 1 + 0) 0 := by
  have h10 : jsRound (GenUtils.lerp 4 10 (GenUtils.clamp 1 0 1)) = 10 := by
    have : GenUtils.lerp (4 : ℝ) 10 (GenUtils.clamp 1 0 1) = 10 := by
      norm_num [GenUtils.lerp, GenUtils.clamp]
    rw [this, jsRound, Int.floor_eq_iff]
    norm_num
  have hcs : CustomGen.createSettlements [1] 1 1 0.4 =
      [⟨1, 0, 0, 10⟩] := by
    simp only [CustomGen.createSettlements]
    norm_num [List.filterMap, h10]
  refine ⟨?_, ?_⟩
  · rw [hcs]; exact List.mem_singleton.mpr rfl
  · exact C5_createSettlements_above_sea [1] 1 1 0.4 ⟨1, 0, 0, 10⟩ (by
      rw [hcs]; exact List.mem_singleton.mpr rfl)

/-- C5 counterexample: the custom weitou-delta generator with the sea-level
setting 1 returns a settlement whose cell height is NOT strictly above the
sea level (the final clamp caps every height at 1). -/
theorem C5_weitou_settlement_not_above_sea :
    ∃ s, (CustomGen.generateWeitouDelta c5cexParams).settlements = some [s] ∧
      ¬ (c5cexParams.settings.seaLevel.getD 0.35 <
          (CustomGen.generateWeitouDelta c5cexParams).heightmap.getD
            (s.y * c5cexParams.width + s.x) 0) := by
  refine ⟨CustomGen.weitouSettlement c5cexParams,
    generateWeitouDelta_settlements c5cexParams, ?_⟩
  rw [not_lt, generateWeitouDelta_heightmap]
  have hsl : c5cexParams.settings.seaLevel.getD 0.35 = 1 := rfl
  rw [hsl]
  exact weitouHeightmap_getD_le_one c5cexParams _

/-- C8 counterexample: the continental-blueprint runner does not clamp its
parameters — on a 1×1 map, `seaLevel = -5` (below the documented minimum
0.35) yields a different result than the boundary value 0.35: the single
cell's water is 1 at the boundary but strictly less than 1 below it. -/
theorem C8_runner_not_clamped :
    Continental.generate c8cexContextLow ≠ Continental.generate c8cexContextMin := by
  have hhm : ∀ ctx : Continental.Context, ctx.width = 1 → ctx.height = 1 →
      TerrainProc.normalizeHeightmap (TerrainProc.blurHeightmap
        ((List.range (ctx.width * ctx.height)).map fun idx =>
          Continental.heightCell ctx (idx % ctx.width) (idx / ctx.width))
        ctx.width ctx.height 1) = [0] := by
    intro ctx hw hh
    obtain ⟨v, hv⟩ : ∃ v, TerrainProc.blurHeightmap
        ((List.range (ctx.width * ctx.height)).map fun idx =>
          Continental.heightCell ctx (idx % ctx.width) (idx / ctx.width))
        ctx.width ctx.height 1 = [v] := by
      apply List.length_eq_one.mp
      rw [blurHeightmap_length, List.length_map, List.length_range, hw, hh]
    rw [hv, normalizeHeightmap_singleton]
  have hlow : (Continental.generate c8cexContextLow).terrain.water 0 =
      if (0 : ℝ) ≤ (-5 : ℝ) then 1
      else if 0.3 < ((1 : ℝ) / 2) ^ (0.4 : ℝ) then ((1 : ℝ) / 2) ^ (0.4 : ℝ)
      else 0 := by
    have h0 : (Continental.generate c8cexContextLow).terrain.water 0 =
        (TerrainProc.buildFlowMap
          (fun i => (TerrainProc.normalizeHeightmap (TerrainProc.blurHeightmap
            ((List.range (c8cexContextLow.width * c8cexContextLow.height)).map fun idx =>
              Continental.heightCell c8cexContextLow (idx % c8cexContextLow.width)
                (idx / c8cexContextLow.width))
            c8cexContextLow.width c8cexContextLow.height 1)).getD i 0)
          c8cexContextLow.width c8cexContextLow.height
          c8cexContextLow.parameters.seaLevel).2 0 := rfl
    rw [h0]
    simp only [hhm c8cexContextLow rfl rfl]
    have hw : c8cexContextLow.width = 1 := rfl
    have hh : c8cexContextLow.height = 1 := rfl
    have hsl : c8cexContextLow.parameters.seaLevel = -5 := rfl
    rw [hw, hh, hsl, buildFlowMap_zero_one_one]
  have hmin : (Continental.generate c8cexContextMin).terrain.water 0 = 1 := by
    have h0 : (Continental.generate c8cexContextMin).terrain.water 0 =
        (TerrainProc.buildFlowMap
          (fun i => (TerrainProc.normalizeHeightmap (TerrainProc.blurHeightmap
            ((List.range (c8cexContextMin.width * c8cexContextMin.height)).map fun idx =>
              Continental.heightCell c8cexContextMin (idx % c8cexContextMin.width)
                (idx / c8cexContextMin.width))
            c8cexContextMin.width c8cexContextMin.height 1)).getD i 0)
          c8cexContextMin.width c8cexContextMin.height
          c8cexContextMin.parameters.seaLevel).2 0 := rfl
    rw [h0]
    simp only [hhm c8cexContextMin rfl rfl]
    have hw : c8cexContextMin.width = 1 := rfl
    have hh : c8cexContextMin.height = 1 := rfl
    have hsl : c8cexContextMin.parameters.seaLevel = 0.35 := rfl
    rw [hw, hh, hsl, buildFlowMap_zero_one_one]
    norm_num
  intro heq
  have hweq := congrArg (fun r => (r.terrain.water 0)) heq
  simp only at hweq
  rw [hlow, hmin] at hweq
  have hlt : ((1 : ℝ) / 2) ^ (0.4 : ℝ) < 1 := by
    apply Real.rpow_lt_one (by norm_num) (by norm_num) (by norm_num)
  rw [if_neg (by norm_num : ¬ (0 : ℝ) ≤ (-5 : ℝ))] at hweq
  by_cases hcase : (0.3 : ℝ) < ((1 : ℝ) / 2) ^ (0.4 : ℝ)
  · rw [if_pos hcase] at hweq
    linarith
  · rw [if_neg hcase] at hweq
    norm_num at hweq

/-- C10 (amended): when the heightmap has the advertised `width * height`
cells, `blurHeightmap` preserves the length and every output cell stays
within any interval `[lo, hi]` containing all input cells (each output cell
is a convex combination of input cells: the 5-tap kernel sums to 1 and
sample indices are clamped to the border).  For a heightmap whose length is
not `width * height` the bound fails — see the counterexample. -/
theorem C10_blur_length_and_bounds (l : List ℝ) (w h n : ℕ) (lo hi : ℝ)
    (hlen : l.length = w * h) (hw : 1 ≤ w) (hh : 1 ≤ h)
    (hbound : ∀ v ∈ l, lo ≤ v ∧ v ≤ hi) :
    (TerrainProc.blurHeightmap l w h n).length = l.length ∧
    ∀ v ∈ TerrainProc.blurHeightmap l w h n, lo ≤ v ∧ v ≤ hi := by
  refine ⟨blurHeightmap_length l w h n, ?_⟩
  induction n with
  | zero => exact hbound
  | succ k ih =>
    show ∀ v ∈ TerrainProc.blurPassV (TerrainProc.blurPassH
      (TerrainProc.blurHeightmap l w h k) w) w h, lo ≤ v ∧ v ≤ hi
    have hlenk : (TerrainProc.blurHeightmap l w h k).length = w * h := by
      rw [blurHeightmap_length, hlen]
    have hlenhk : (TerrainProc.blurPassH (TerrainProc.blurHeightmap l w h k) w).length
        = w * h := by
      rw [blurPassH_length, hlenk]
    exact blurPassV_bounds _ w h lo hi hlenhk hw hh
      (blurPassH_bounds _ w h lo hi hlenk hw ih)

/-- C10 witness: one blur pass on the 2×1 heightmap `[0.25, 0.75]` keeps the
length and every cell inside `[0, 1]`. -/
theorem C10_blur_length_and_bounds_witness :
    (([(0.25 : ℝ), 0.75].length = 2 * 1) ∧ 1 ≤ 2 ∧ 1 ≤ 1 ∧
      (∀ v ∈ [(0.25 : ℝ), 0.75], (0 : ℝ) ≤ v ∧ v ≤ 1)) ∧
    ((TerrainProc.blurHeightmap [(0.25 : ℝ), 0.75] 2 1 1).length =
        [(0.25 : ℝ), 0.75].length ∧
      ∀ v ∈ TerrainProc.blurHeightmap [(0.25 : ℝ), 0.75] 2 1 1,
        (0 : ℝ) ≤ v ∧ v ≤ 1) := by
  have hb : ∀ v ∈ [(0.25 : ℝ), 0.75], (0 : ℝ) ≤ v ∧ v ≤ 1 := by
    intro v hv
    rcases List.mem_cons.mp hv with h | hv2
    · rw [h]
      norm_num
    · rw [List.mem_singleton.mp hv2]
      norm_num
  exact ⟨⟨rfl, by norm_num, le_rfl, hb⟩,
    C10_blur_length_and_bounds [(0.25 : ℝ), 0.75] 2 1 1 0 1 rfl (by norm_num) le_rfl hb⟩

/-- C10 counterexample: on a heightmap whose length (1) is not
`width * height` (2·1 = 2), the blur reads out-of-range samples and the
output escapes the input interval: all input cells equal 1, but after one
pass the single cell is 11/16 < 1. -/
theorem C10_blur_escapes_on_length_mismatch :
    (∀ v ∈ [(1 : ℝ)], (1 : ℝ) ≤ v ∧ v ≤ 1) ∧
    ¬ (∀ v ∈ TerrainProc.blurHeightmap [(1 : ℝ)] 2 1 1, (1 : ℝ) ≤ v ∧ v ≤ 1) := by
  have hr1 : List.range 1 = [0] := rfl
  have hr5 : List.range 5 = [0, 1, 2, 3, 4] := rfl
  have h1 : TerrainProc.blurHeightmap [(1 : ℝ)] 2 1 1 = [11 / 16] := by
    show TerrainProc.blurPassV (TerrainProc.blurPassH [(1 : ℝ)] 2) 2 1 = [11 / 16]
    have hH : TerrainProc.blurPassH [(1 : ℝ)] 2 = [11 / 16] := by
      rw [TerrainProc.blurPassH]
      norm_num [hr1, hr5, List.foldl, TerrainProc.kernel, List.getD]
    rw [hH, TerrainProc.blurPassV]
    norm_num [hr1, hr5, List.foldl, TerrainProc.kernel, List.getD]
  constructor
  · intro v hv
    rw [List.mem_singleton.mp hv]
    norm_num
  · intro hall
    have h2 := hall (11 / 16) (by rw [h1]; exact List.mem_singleton.mpr rfl)
    norm_num at h2

/-- C4 (amended): a cell with `water > 0.6` is never classified as desert or
alpine — `classifyBiomes` returns ocean (0) or lake (1), and `pickBiome`
returns ocean (0); and in `classifyBiomes` a cell with `elevation > 0.82`
that is not underwater (neither in the ocean branch nor in the
`water > 0.6` lake branch) is always classified as alpine (9).  `pickBiome`
has no alpine-threshold override, so the alpine clause holds only for
`classifyBiomes` (see the counterexample). -/
theorem C4_biome_boundaries :
    (∀ (hm w t m : ℕ → ℝ) (sl : ℝ) (i : ℕ), 0.6 < w i →
      TerrainProc.classifyBiomes hm w t m sl i = 0 ∨
      TerrainProc.classifyBiomes hm w t m sl i = 1) ∧
    (∀ (e wd m t : ℝ) (p : Systems.GeneratorParameters), 0.6 < wd →
      Systems.pickBiome e wd m t p = 0) ∧
    (∀ (hm w t m : ℕ → ℝ) (sl : ℝ) (i : ℕ), 0.82 < hm i → sl - 0.02 < hm i →
      w i ≤ 0.6 → TerrainProc.classifyBiomes hm w t m sl i = 9) := by
  refine ⟨fun hm w t m sl i hw => ?_, fun e wd m t p hwd => ?_,
    fun hm w t m sl i he hsl hw => ?_⟩
  · unfold TerrainProc.classifyBiomes
    by_cases hocean : hm i ≤ sl - 0.02
    · left
      simp [hocean]
    · right
      simp [hocean, hw]
  · unfold Systems.pickBiome
    have : (0.55 : ℝ) < wd := lt_trans (by norm_num) hwd
    simp [this]
  · unfold TerrainProc.classifyBiomes
    have h1 : ¬ hm i ≤ sl - 0.02 := not_le.mpr hsl
    have h2 : ¬ (0.6 : ℝ) < w i := not_lt.mpr hw
    simp [h1, h2, he]

/-- Witness for C4 at concrete cells. -/
theorem C4_biome_boundaries_witness :
    ((0.6 : ℝ) < 0.7 ∧ (0.82 : ℝ) < 0.9 ∧ (0.5 : ℝ) - 0.02 < 0.9 ∧ (0 : ℝ) ≤ 0.6) ∧
    (TerrainProc.classifyBiomes (fun _ => 0.5) (fun _ => 0.7) (fun _ => 0.5)
        (fun _ => 0.5) 0.5 0 = 0 ∨
      TerrainProc.classifyBiomes (fun _ => 0.5) (fun _ => 0.7) (fun _ => 0.5)
        (fun _ => 0.5) 0.5 0 = 1) ∧
    Systems.pickBiome 0.3 0.7 0.5 0.5 sampleParams = 0 ∧
    TerrainProc.classifyBiomes (fun _ => 0.9) (fun _ => 0) (fun _ => 0.5)
      (fun _ => 0.5) 0.5 0 = 9 :=
  ⟨⟨by norm_num, by norm_num, by norm_num, by norm_num⟩,
    C4_biome_boundaries.1 (fun _ => 0.5) (fun _ => 0.7) (fun _ => 0.5)
      (fun _ => 0.5) 0.5 0 (by norm_num),
    C4_biome_boundaries.2.1 0.3 0.7 0.5 0.5 sampleParams (by norm_num),
    C4_biome_boundaries.2.2 (fun _ => 0.9) (fun _ => 0) (fun _ => 0.5)
      (fun _ => 0.5) 0.5 0 (by norm_num) (by norm_num) (by norm_num)⟩

/-- C4 counterexample: `pickBiome` (generation/biome.ts) classifies the cell
`(elevation, waterDepth, moisture, temperature) = (0.83, 0, 0.9, 0.8)` —
above the alpine threshold 0.82 and not underwater — as tropical forest (6),
not alpine (9): the nearest-reference scan has no alpine override. -/
theorem C4_pickBiome_alpine_counterexample :
    Systems.pickBiome 0.83 0 0.9 0.8 sampleParams = 6 ∧
    Systems.pickBiome 0.83 0 0.9 0.8 sampleParams ≠ 9 := by
  have h : Systems.pickBiome 0.83 0 0.9 0.8 sampleParams = 6 := by
    unfold Systems.pickBiome
    norm_num [GenBiome.BIOME_REFERENCES, GenBiome.pickStep, sampleParams,
      abs_of_nonneg, abs_of_nonpos]
  exact ⟨h, by rw [h]; norm_num⟩

end MapTool
